import Mathlib

/-!
Verification of the gecko_poker_bot_v2 decision engine against its
natural-language specification.

The Python sources are shallowly embedded: every definition below is a
direct translation of the corresponding function in the repository
(`poker_enums.py`, `hand_evaluator.py`, `board_texture_symbols.py`,
`betting_action_symbols.py`, `table_state.py`, `board_analyzer.py`,
`gecko_bot.py`).  Machine floats are modelled as exact rationals,
Python exceptions as an explicit `Except` error type and Python card
strings (always two characters: rank char then suit char) as pairs of
characters.  Where the Python code would raise (missing attribute,
key lookup on an empty dict, division by zero, `max`/`min` of an empty
sequence, invalid card char) the embedding returns the corresponding
error value.
-/

deriving instance DecidableEq for Except

namespace Gecko

/-- Python exceptions that the embedded code can raise. -/
inductive PyErr where
  | attributeError
  | keyError
  | valueError
  | zeroDivisionError
  | indexError
  deriving DecidableEq, Repr

/-- poker_enums.Action. -/
inductive Action where
  | fold
  | check
  | call
  | raise
  | allIn
  deriving DecidableEq, Repr

/-- poker_enums.Street (IntEnum with PREFLOP=1 .. RIVER=4). -/
inductive Street where
  | preflop
  | flop
  | turn
  | river
  deriving DecidableEq, Repr

/-- Numeric value of a street (the IntEnum value). -/
def Street.val : Street → Nat
  | .preflop => 1
  | .flop => 2
  | .turn => 3
  | .river => 4

/-- poker_enums.Position. -/
inductive Position where
  | button
  | smallBlind
  | bigBlind
  | utg
  | mp
  | co
  deriving DecidableEq, Repr

/-- poker_enums.BoardTexture. -/
inductive BoardTexture where
  | dry
  | semiWet
  | wet
  | veryWet
  deriving DecidableEq, Repr

/-- poker_enums.HandStrength: the flat categorical enum, one constructor
per member. -/
inductive HandStrength where
  | highCard
  | aceHigh
  | kingHigh
  | bottomPairBadKicker
  | bottomPairGoodKicker
  | middlePairBadKicker
  | middlePairGoodKicker
  | topPairBadKicker
  | topPairWeakKicker
  | topPairGoodKicker
  | overpairWeak
  | overpairStrong
  | twoPairBottom
  | twoPairTopAndBottom
  | twoPairTopAndMiddle
  | twoPairTop
  | trips
  | set
  | secondSet
  | topSet
  | straight
  | flush
  | fullHouse
  | fourOfAKind
  | straightFlush
  | gutshot
  | doubleGutshot
  | openEnded
  | flushDraw
  | flushDrawWithOvercard
  | flushDrawWithPair
  | flushDrawWithStraightDraw
  | nutFlushDraw
  | secondNutFlushDraw
  | twoOvercards
  | overcardsWithGutshot
  | overcardsWithStraightDraw
  | pairWithGutshot
  | pairWithStraightDraw
  | backdoorFlushDraw
  | backdoorStraightDraw
  | backdoorTwoCardsStraight
  | secondTopPairGoodKicker
  | secondTopPairBadKicker
  | thirdTopPairGoodKicker
  | thirdTopPairBadKicker
  | pairWithFlushRedraw
  | pairWithStraightRedraw
  | setWithFlushRedraw
  | setWithStraightRedraw
  | bluffWithBlocker
  | semiBluffWithBlocker
  deriving DecidableEq, Repr

/-- The integer value attached to each HandStrength member in
poker_enums.py. -/
def HandStrength.val : HandStrength → Nat
  | .highCard => 0
  | .aceHigh => 5
  | .kingHigh => 3
  | .bottomPairBadKicker => 10
  | .bottomPairGoodKicker => 15
  | .middlePairBadKicker => 20
  | .middlePairGoodKicker => 25
  | .topPairBadKicker => 30
  | .topPairWeakKicker => 35
  | .topPairGoodKicker => 40
  | .overpairWeak => 45
  | .overpairStrong => 50
  | .twoPairBottom => 55
  | .twoPairTopAndBottom => 60
  | .twoPairTopAndMiddle => 65
  | .twoPairTop => 70
  | .trips => 73
  | .set => 75
  | .secondSet => 77
  | .topSet => 80
  | .straight => 85
  | .flush => 90
  | .fullHouse => 100
  | .fourOfAKind => 110
  | .straightFlush => 120
  | .gutshot => 12
  | .doubleGutshot => 22
  | .openEnded => 32
  | .flushDraw => 42
  | .flushDrawWithOvercard => 44
  | .flushDrawWithPair => 52
  | .flushDrawWithStraightDraw => 62
  | .nutFlushDraw => 72
  | .secondNutFlushDraw => 71
  | .twoOvercards => 8
  | .overcardsWithGutshot => 18
  | .overcardsWithStraightDraw => 38
  | .pairWithGutshot => 28
  | .pairWithStraightDraw => 48
  | .backdoorFlushDraw => 6
  | .backdoorStraightDraw => 4
  | .backdoorTwoCardsStraight => 2
  | .secondTopPairGoodKicker => 37
  | .secondTopPairBadKicker => 33
  | .thirdTopPairGoodKicker => 27
  | .thirdTopPairBadKicker => 23
  | .pairWithFlushRedraw => 53
  | .pairWithStraightRedraw => 49
  | .setWithFlushRedraw => 83
  | .setWithStraightRedraw => 82
  | .bluffWithBlocker => 7
  | .semiBluffWithBlocker => 17

/-- HandStrength.is_draw (membership list from poker_enums.py). -/
def HandStrength.isDraw (h : HandStrength) : Bool :=
  h = .gutshot || h = .doubleGutshot || h = .openEnded || h = .flushDraw ||
  h = .flushDrawWithOvercard || h = .flushDrawWithPair ||
  h = .flushDrawWithStraightDraw || h = .nutFlushDraw || h = .twoOvercards ||
  h = .overcardsWithGutshot || h = .overcardsWithStraightDraw ||
  h = .backdoorFlushDraw || h = .backdoorStraightDraw ||
  h = .backdoorTwoCardsStraight

/-- HandStrength.is_made_hand. -/
def HandStrength.isMadeHand (h : HandStrength) : Bool :=
  decide (10 ≤ h.val) && !h.isDraw

/-- HandStrength.is_strong_made_hand (value ≥ TWO_PAIR_TOP_AND_BOTTOM = 60). -/
def HandStrength.isStrongMadeHand (h : HandStrength) : Bool :=
  decide (60 ≤ h.val) && !h.isDraw

/-- HandStrength.is_medium_made_hand (TOP_PAIR_GOOD_KICKER = 40 ≤ value < 60). -/
def HandStrength.isMediumMadeHand (h : HandStrength) : Bool :=
  decide (40 ≤ h.val) && decide (h.val < 60) && !h.isDraw

/-- HandStrength.is_weak_made_hand (10 ≤ value < 40). -/
def HandStrength.isWeakMadeHand (h : HandStrength) : Bool :=
  decide (10 ≤ h.val) && decide (h.val < 40) && !h.isDraw

/-- HandStrength.is_strong_draw. -/
def HandStrength.isStrongDraw (h : HandStrength) : Bool :=
  h = .flushDrawWithPair || h = .flushDrawWithStraightDraw ||
  h = .nutFlushDraw || h = .overcardsWithStraightDraw

/-- HandStrength.is_medium_draw. -/
def HandStrength.isMediumDraw (h : HandStrength) : Bool :=
  h = .flushDraw || h = .flushDrawWithOvercard || h = .openEnded ||
  h = .doubleGutshot || h = .overcardsWithGutshot

/-- HandStrength.is_weak_draw. -/
def HandStrength.isWeakDraw (h : HandStrength) : Bool :=
  h = .gutshot || h = .twoOvercards || h = .backdoorFlushDraw ||
  h = .backdoorStraightDraw || h = .backdoorTwoCardsStraight

/-- A card as handled by hand_evaluator.py: a two-character string,
first character the rank char ('2'..'9','T','J','Q','K','A'), second the
suit char ('h','d','c','s').  Modelled as the pair of characters. -/
structure CardS where
  rank : Char
  suit : Char
  deriving DecidableEq, Repr

/-- HandEvaluator.rank_values: {rank: i for i, rank in enumerate('23456789TJQKA')},
as a partial lookup (dict indexing). -/
def rankIdx? : Char → Option Nat
  | '2' => some 0
  | '3' => some 1
  | '4' => some 2
  | '5' => some 3
  | '6' => some 4
  | '7' => some 5
  | '8' => some 6
  | '9' => some 7
  | 'T' => some 8
  | 'J' => some 9
  | 'Q' => some 10
  | 'K' => some 11
  | 'A' => some 12
  | _ => none

/-- HandEvaluator._rank_to_number: rank_values.get(rank, 0). -/
def rankToNumber (c : Char) : Nat := (rankIdx? c).getD 0

/-- Python sorted() on a list of naturals. -/
def sortNat (l : List Nat) : List Nat := List.insertionSort (· ≤ ·) l

/-- Python max() with default 0; every use below is guarded so the list
is nonempty exactly as in the source. -/
def maxNat (l : List Nat) : Nat := l.foldl max 0

/-- The rank-count dictionary of _score_five_card_hand: pairs
(rank value, multiplicity), keyed in ascending rank order (the Python
dict is built by inserting the sorted values in order, so its item
order is ascending first occurrence). -/
def rankCounts (vals : List Nat) : List (Nat × Nat) :=
  (sortNat vals).dedup.map (fun r => (r, vals.count r))

/-- `n in rank_counts.values()`. -/
def hasCount (counts : List (Nat × Nat)) (n : Nat) : Bool :=
  counts.any (fun p => p.2 = n)

/-- `[r for r, c in rank_counts.items() if c == n][0]`; the Python
indexing is guarded by the surrounding branch so the list is nonempty. -/
def firstWithCount (counts : List (Nat × Nat)) (n : Nat) : Nat :=
  ((counts.find? (fun p => p.2 = n)).map (·.1)).getD 0

/-- `sorted([r for r, c in ... if c == 1], reverse=True)`; `counts` is
ascending so reversing gives the descending order. -/
def kickersDesc (counts : List (Nat × Nat)) : List Nat :=
  ((counts.filter (fun p => p.2 = 1)).map (·.1)).reverse

/-- `sorted([r for r, c in ... if c == 2], reverse=True)`. -/
def pairsDesc (counts : List (Nat × Nat)) : List Nat :=
  ((counts.filter (fun p => p.2 = 2)).map (·.1)).reverse

/-- HandEvaluator._is_straight over the sorted value list: the wheel
special case [0,1,2,3,12] (cards 2,3,4,5,A in 0-based values), otherwise
equality with `list(range(min, max+1))`. -/
def isStraightSorted (sorted : List Nat) : Bool :=
  if sorted.length ≠ 5 then false
  else if sorted = [0, 1, 2, 3, 12] then true
  else
    match sorted with
    | [] => false
    | lo :: _ =>
        let hi := maxNat sorted
        sorted = List.range' lo (hi + 1 - lo)

/-- Effectful map over a list in the Except monad, written out
structurally (the loop shape of the Python list comprehensions). -/
def mapME {α β : Type} (f : α → Except PyErr β) : List α → Except PyErr (List β)
  | [] => .ok []
  | a :: t =>
    match f a with
    | .error e => .error e
    | .ok b =>
      match mapME f t with
      | .error e => .error e
      | .ok bs => .ok (b :: bs)

/-- Branch cascade of _score_five_card_hand once the rank values have
been looked up; everything after the dict lookups is pure. -/
def scoreFromValues (values : List Nat) (suits : List Char) : Nat :=
  let isFlush := suits.dedup.length = 1
  let sortedV := sortNat values
  let isStr := isStraightSorted sortedV
  if isStr && isFlush then
    8000000 + maxNat sortedV
  else
    let counts := rankCounts values
    if hasCount counts 4 then
      7000000 + firstWithCount counts 4 * 13 + firstWithCount counts 1
    else if hasCount counts 3 && hasCount counts 2 then
      6000000 + firstWithCount counts 3 * 13 + firstWithCount counts 2
    else if isFlush then
      5000000 + sortedV.sum
    else if isStr then
      4000000 + maxNat sortedV
    else if hasCount counts 3 then
      let ks := kickersDesc counts
      3000000 + firstWithCount counts 3 * 169 + ks.headD 0 * 13 + (ks.getD 1 0)
    else if (counts.filter (fun p => p.2 = 2)).length = 2 then
      let ps := pairsDesc counts
      2000000 + ps.headD 0 * 169 + (ps.getD 1 0) * 13 + firstWithCount counts 1
    else if hasCount counts 2 then
      let ks := kickersDesc counts
      1000000 + firstWithCount counts 2 * 2197 +
        ks.headD 0 * 169 + (ks.getD 1 0) * 13 + (ks.getD 2 0)
    else
      sortedV.reverse.enum.foldl (fun acc p => acc + p.2 * 13 ^ p.1) 0

/-- HandEvaluator._score_five_card_hand.  Rank chars are looked up with
direct dict indexing (`self.rank_values[r]`), so an invalid rank char
raises KeyError; the branch cascade on the looked-up values is
scoreFromValues. -/
def scoreFiveCardHand (hand : List CardS) : Except PyErr Nat :=
  match mapME (fun c =>
    match rankIdx? c.rank with
    | some v => Except.ok v
    | none => Except.error PyErr.keyError) hand with
  | .error e => .error e
  | .ok values => .ok (scoreFromValues values (hand.map (·.suit)))

/-- HandEvaluator._calculate_hand_score: 0 for fewer than 5 cards, else
the maximum of _score_five_card_hand over all 5-card combinations. -/
def calculateHandScore (cards : List CardS) : Except PyErr Nat :=
  if cards.length < 5 then .ok 0
  else
    match mapME scoreFiveCardHand (List.sublistsLen 5 cards) with
    | .error e => .error e
    | .ok scores => .ok (scores.foldl max 0)

/-- Direct dict indexing `self.rank_values[r]` (raises KeyError on an
invalid rank char). -/
def rankIdxE (c : Char) : Except PyErr Nat :=
  match rankIdx? c with
  | some v => .ok v
  | none => .error PyErr.keyError

/-- Python max() over a nonempty sequence of characters (compared by
code point, exactly as Python compares one-character strings); the
default for the empty list is unused because every call site is guarded
as in the source. -/
def pyMaxChar (l : List Char) : Char :=
  match l with
  | [] => 'x'
  | h :: t => t.foldl (fun a b => if a < b then b else a) h

/-- HandEvaluator._have_pair: some rank appears at least twice among
hole + board. -/
def havePair (hole board : List CardS) : Bool :=
  let ranks := (hole ++ board).map (·.rank)
  ranks.any (fun r => 2 ≤ ranks.count r)

/-- HandEvaluator._have_top_pair: the maximum board rank CHARACTER
(Python max over the rank chars, i.e. code-point order, where for
example 'T' exceeds 'A') appears in the hole cards. -/
def haveTopPair (hole board : List CardS) : Bool :=
  if board.isEmpty then false
  else
    let topRank := pyMaxChar (board.map (·.rank))
    hole.any (fun c => c.rank = topRank)

/-- HandEvaluator._have_overcard (final definition): at least one hole
card ranks above every board card (0-based numeric values). -/
def haveOvercard (hole board : List CardS) : Bool :=
  if board.isEmpty then false
  else
    let maxBoard := maxNat (board.map (fun c => rankToNumber c.rank))
    hole.any (fun c => maxBoard < rankToNumber c.rank)

/-- HandEvaluator._have_overcards (final definition): all hole cards
rank above every board card (Python all() is true for an empty hole). -/
def haveOvercards (hole board : List CardS) : Bool :=
  if board.isEmpty then false
  else
    let maxBoard := maxNat (board.map (fun c => rankToNumber c.rank))
    hole.all (fun c => maxBoard < rankToNumber c.rank)

/-- HandEvaluator._made_with_hole_cards: some hole rank whose total
multiplicity among hole + board equals `count` and that occurs in the
hole (the Python iteration over the rank set is an existential). -/
def madeWithHoleCards (hole board : List CardS) (count : Nat) : Bool :=
  hole.any (fun c =>
    ((hole ++ board).countP (fun d => d.rank = c.rank) = count) &&
    (0 < hole.countP (fun d => d.rank = c.rank)))

/-- HandEvaluator._is_top_set: the hole cards form a pair equal to the
maximum board rank character; indexing hole_cards[0]/[1] raises
IndexError when fewer than two hole cards are present. -/
def isTopSet (hole board : List CardS) : Except PyErr Bool :=
  if board.isEmpty then .ok false
  else
    let topRank := pyMaxChar (board.map (·.rank))
    match hole with
    | c0 :: c1 :: _ => .ok (c0.rank = c1.rank && c1.rank = topRank)
    | _ => .error PyErr.indexError

/-- HandEvaluator._is_top_two_pair (the final definition in the class
body wins in Python): direct `self.rank_values[...]` lookups, max of
the board ranks (ValueError on an empty board) and membership of the
top and one further board rank in the hole ranks. -/
def isTopTwoPair (hole board : List CardS) : Except PyErr Bool :=
  match mapME (fun c => rankIdxE c.rank) board with
  | .error e => .error e
  | .ok boardRanks =>
    let sortedB := sortNat boardRanks
    match mapME (fun c => rankIdxE c.rank) hole with
    | .error e => .error e
    | .ok holeRanks =>
      match sortedB with
      | [] => .error PyErr.valueError
      | _ =>
        .ok (holeRanks.contains (maxNat sortedB) &&
          sortedB.dropLast.any (fun r => holeRanks.contains r))

/-- HandEvaluator._is_top_and_middle_pair: guarded to boards of at
least 3 cards; uses _rank_to_number (defaulting lookups). -/
def isTopAndMiddlePair (hole board : List CardS) : Bool :=
  if board.isEmpty || board.length < 3 then false
  else
    let sortedB := sortNat (board.map (fun c => rankToNumber c.rank))
    let holeRanks := hole.map (fun c => rankToNumber c.rank)
    holeRanks.contains (maxNat sortedB) &&
      holeRanks.contains (sortedB.getD (sortedB.length - 2) 0)

/-- HandEvaluator._is_top_and_bottom_pair: guarded to boards of at
least 2 cards. -/
def isTopAndBottomPair (hole board : List CardS) : Bool :=
  if board.isEmpty || board.length < 2 then false
  else
    let boardRanks := board.map (fun c => rankToNumber c.rank)
    let holeRanks := hole.map (fun c => rankToNumber c.rank)
    holeRanks.contains (maxNat boardRanks) &&
      holeRanks.contains (boardRanks.foldl min (boardRanks.headD 0))

/-- HandEvaluator._evaluate_made_hand.  In the one-pair branch the
source calls `self._have_overpair(...)`, but no method of that name is
defined on HandEvaluator (only the public `have_overpair` exists), so
Python raises AttributeError for every holding whose best five-card
hand is one pair; the refinements below that call are dead code. -/
def evaluateMadeHand (hole board : List CardS) : Except PyErr HandStrength := do
  let allCards := hole ++ board
  let score ← calculateHandScore allCards
  if 8000000 ≤ score then return .straightFlush
  if 7000000 ≤ score then return .fourOfAKind
  if 6000000 ≤ score then return .fullHouse
  if 5000000 ≤ score then return .flush
  if 4000000 ≤ score then return .straight
  if 3000000 ≤ score then
    if madeWithHoleCards hole board 2 then
      if (← isTopSet hole board) then return .topSet
      return .set
    return .trips
  if 2000000 ≤ score then
    if (← isTopTwoPair hole board) then return .twoPairTop
    if isTopAndMiddlePair hole board then return .twoPairTopAndMiddle
    if isTopAndBottomPair hole board then return .twoPairTopAndBottom
    return .twoPairBottom
  if 1000000 ≤ score then
    -- `if self._have_overpair(hole_cards, board):` — AttributeError.
    Except.error PyErr.attributeError
  else
    match hole with
    | [] => Except.error PyErr.indexError
    | c0 :: _ =>
      if rankToNumber c0.rank = 14 then return .aceHigh
      if rankToNumber c0.rank = 13 then return .kingHigh
      return .highCard

/-- HandEvaluator._evaluate_preflop. -/
def evaluatePreflop (hole : List CardS) : HandStrength :=
  match hole with
  | [c0, c1] =>
    let r0 := rankToNumber c0.rank
    let r1 := rankToNumber c1.rank
    let suited := c0.suit = c1.suit
    if r0 = r1 then
      if 13 ≤ r0 then .overpairStrong
      else if 11 ≤ r0 then .overpairStrong
      else if 9 ≤ r0 then .overpairWeak
      else .middlePairGoodKicker
    else
      let hi := max r0 r1
      let lo := min r0 r1
      let gap := hi - lo
      if hi = 14 then
        if 12 ≤ lo then .topPairGoodKicker
        else if 10 ≤ lo then .topPairWeakKicker
        else if suited ∧ 8 ≤ lo then .topPairWeakKicker
        else if suited then .flushDraw
        else .aceHigh
      else if hi = 13 then
        if 11 ≤ lo then .topPairWeakKicker
        else if suited ∧ 9 ≤ lo then .flushDraw
        else .kingHigh
      else if suited ∧ gap ≤ 2 ∧ 9 ≤ lo then .flushDraw
      else .highCard
  | _ => .highCard

/-- HandEvaluator._evaluate_flush_draw: at least 4 cards of a suit
among hole + board, provided the board has fewer than 5 cards. -/
def evaluateFlushDraw (hole board : List CardS) : Bool :=
  if 5 ≤ board.length then false
  else
    let suits := (hole ++ board).map (·.suit)
    suits.any (fun s => 4 ≤ suits.count s)

/-- HandEvaluator._have_flush_draw: exactly 4 cards of some suit. -/
def haveFlushDraw (hole board : List CardS) : Bool :=
  let suits := (hole ++ board).map (·.suit)
  suits.any (fun s => suits.count s = 4)

/-- The suit iteration order 'hdcs' used by _is_nut_flush_draw. -/
def suitOrder : List Char := ['h', 'd', 'c', 's']

/-- HandEvaluator._is_nut_flush_draw (final definition): requires
_have_flush_draw (a suit with exactly 4 cards), then checks whether a
hole card is the Ace of the first suit (in 'hdcs' order) holding at
least 4 cards. -/
def isNutFlushDraw (hole board : List CardS) : Bool :=
  if !haveFlushDraw hole board then false
  else
    let suits := (hole ++ board).map (·.suit)
    let drawSuit := (suitOrder.find? (fun s => 4 ≤ suits.count s)).getD 'h'
    hole.any (fun c => c.rank = 'A' && c.suit = drawSuit)

/-- `sorted(list(set(ranks)))` over the defaulting rank values. -/
def dedupSortedRanks (cards : List CardS) : List Nat :=
  sortNat ((cards.map (fun c => rankToNumber c.rank)).dedup)

/-- Scan for four consecutive entries spanning exactly 3 (the
`ranks[i+3] - ranks[i] == 3` windows of _have_straight_draw). -/
def hasQuadSpan3 : List Nat → Bool
  | a :: b :: c :: d :: rest => (d - a = 3) || hasQuadSpan3 (b :: c :: d :: rest)
  | _ => false

/-- Scan for three entries spanning exactly 3 (`ranks[i+2] - ranks[i] == 3`). -/
def hasTripleSpan3 : List Nat → Bool
  | a :: b :: c :: rest => (c - a = 3) || hasTripleSpan3 (b :: c :: rest)
  | _ => false

/-- Count of three-entry windows spanning exactly 3. -/
def countTripleSpan3 : List Nat → Nat
  | a :: b :: c :: rest =>
      (if c - a = 3 then 1 else 0) + countTripleSpan3 (b :: c :: rest)
  | _ => 0

/-- HandEvaluator._have_straight_draw (final definition): four ranks
within span 3 among the deduplicated sorted rank values. -/
def haveStraightDraw (hole board : List CardS) : Bool :=
  hasQuadSpan3 (dedupSortedRanks (hole ++ board))

/-- HandEvaluator._have_gutshot. -/
def haveGutshot (hole board : List CardS) : Bool :=
  hasTripleSpan3 (dedupSortedRanks (hole ++ board))

/-- HandEvaluator._have_double_gutshot. -/
def haveDoubleGutshot (hole board : List CardS) : Bool :=
  2 ≤ countTripleSpan3 (dedupSortedRanks (hole ++ board))

/-- The scan of _have_oesd: Python returns at the FIRST run of four
consecutive values (duplicates kept), answering whether that run can
extend on both ends; otherwise keeps scanning. -/
def oesdScan : List Nat → Bool
  | a :: b :: c :: d :: rest =>
      if b = a + 1 ∧ c = a + 2 ∧ d = a + 3 then
        decide (2 ≤ a) && decide (a + 4 ≤ 14)
      else oesdScan (b :: c :: d :: rest)
  | _ => false

/-- HandEvaluator._have_oesd (final definition): direct rank_values
lookups (KeyError on invalid chars); the wheel guard `if 14 in ranks`
never fires because the stored values are 0-based (Ace is 12). -/
def haveOesd (hole board : List CardS) : Except PyErr Bool :=
  match mapME (fun c => rankIdxE c.rank) (hole ++ board) with
  | .error e => .error e
  | .ok ranks =>
    let sorted := sortNat ranks
    let ranks2 := if sorted.contains 14 then sorted ++ [1] else sorted
    .ok (oesdScan ranks2)

/-- HandEvaluator._have_backdoor_flush_draw: flop only; exactly 3
cards of some suit among hole + board. -/
def haveBackdoorFlushDraw (hole board : List CardS) : Bool :=
  if board.length ≠ 3 then false
  else
    let suits := (hole ++ board).map (·.suit)
    suits.any (fun s => suits.count s = 3)

/-- Adjacent pairs of a list (used for the sorted-rank gap sums). -/
def adjacentPairs (l : List Nat) : List (Nat × Nat) := l.zip l.tail

/-- HandEvaluator._have_backdoor_straight_draw: flop only; the summed
inter-card gaps (which can be negative at duplicated ranks, hence
integers) bounded by 3. -/
def haveBackdoorStraightDraw (hole board : List CardS) : Bool :=
  if board.length ≠ 3 then false
  else
    let sorted := sortNat ((hole ++ board).map (fun c => rankToNumber c.rank))
    let gaps := (adjacentPairs sorted).foldl
      (fun acc p => acc + ((p.2 : Int) - (p.1 : Int) - 1)) 0
    gaps ≤ 3

/-- HandEvaluator._have_backdoor_two_cards_straight: flop only; two
adjacent sorted ranks within 2 of each other. -/
def haveBackdoorTwoCardsStraight (hole board : List CardS) : Bool :=
  if board.length ≠ 3 then false
  else
    let sorted := sortNat ((hole ++ board).map (fun c => rankToNumber c.rank))
    (adjacentPairs sorted).any (fun p => p.2 - p.1 ≤ 2)

/-- HandEvaluator._evaluate_draws. -/
def evaluateDraws (hole board : List CardS) : Except PyErr (Option HandStrength) := do
  if 5 ≤ board.length then return none
  if evaluateFlushDraw hole board then
    if havePair hole board then return some .flushDrawWithPair
    if haveStraightDraw hole board then return some .flushDrawWithStraightDraw
    if haveOvercard hole board then return some .flushDrawWithOvercard
    if isNutFlushDraw hole board then return some .nutFlushDraw
    return some .flushDraw
  if (← haveOesd hole board) then
    if haveOvercards hole board then return some .overcardsWithStraightDraw
    if havePair hole board then return some .pairWithStraightDraw
    return some .openEnded
  if haveGutshot hole board then
    if haveDoubleGutshot hole board then return some .doubleGutshot
    if haveOvercards hole board then return some .overcardsWithGutshot
    if havePair hole board then return some .pairWithGutshot
    return some .gutshot
  if board.length = 3 then
    if haveBackdoorFlushDraw hole board then return some .backdoorFlushDraw
    if haveBackdoorStraightDraw hole board then return some .backdoorStraightDraw
    if haveBackdoorTwoCardsStraight hole board then return some .backdoorTwoCardsStraight
  if haveOvercards hole board then return some .twoOvercards
  return none

/-- HandEvaluator.evaluate_hand_strength: preflop table on an empty
board, otherwise the made hand (returned outright from two pair up),
refined by the draw analyzer. -/
def evaluateHandStrength (hole board : List CardS) : Except PyErr HandStrength := do
  if board.isEmpty then return evaluatePreflop hole
  let madeHand ← evaluateMadeHand hole board
  if 55 ≤ madeHand.val then return madeHand
  let drawHand ← evaluateDraws hole board
  match drawHand with
  | some d =>
      if d.isStrongDraw then return d
      if madeHand.val < d.val then return d
      return madeHand
  | none => return madeHand

/-- HandEvaluator.RANKS in order. -/
def rankChars : List Char :=
  ['2', '3', '4', '5', '6', '7', '8', '9', 'T', 'J', 'Q', 'K', 'A']

/-- HandEvaluator.SUITS in order. -/
def suitChars : List Char := ['h', 'd', 'c', 's']

/-- `[r + s for r in self.RANKS for s in self.SUITS]`: the 52-card deck
in rank-major, 'hdcs'-minor order. -/
def fullDeck : List CardS :=
  rankChars.flatMap (fun r => suitChars.map (fun s => CardS.mk r s))

/-- HandEvaluator._create_deck: the full deck with the hole cards and
board cards removed (first occurrence each, guarded by membership as in
the source). -/
def createDeck (hole : CardS × CardS) (board : List CardS) : List CardS :=
  ([hole.1, hole.2] ++ board).foldl
    (fun deck c => if deck.contains c then deck.erase c else deck) fullDeck

/-- `deck[random.randint(0, len(deck)-1)]`: random.randint raises
ValueError when the range is empty (len(deck) = 0); otherwise an
arbitrary stream value `r` selects index `r % len(deck)`. -/
def pyRandDraw (deck : List CardS) (r : Nat) : Except PyErr CardS :=
  match deck with
  | [] => .error PyErr.valueError
  | _ => .ok (deck.getD (r % deck.length) ⟨'2', 'h'⟩)

/-- Fuel-indexed form of the board-completion while loop; each pass
appends exactly one card, so fuel `5 - board.length` reproduces
`while len(remaining_board) < 5` exactly. -/
def completeBoardFuel (deck : List CardS) (rng : Nat → Nat) :
    Nat → List CardS → Nat → Except PyErr (List CardS × Nat)
  | 0, board, k => .ok (board, k)
  | n + 1, board, k =>
    if board.length < 5 then
      match pyRandDraw deck (rng k) with
      | .error e => .error e
      | .ok c => completeBoardFuel deck rng n (board ++ [c]) (k + 1)
    else .ok (board, k)

/-- `while len(remaining_board) < 5: remaining_board.append(deck[...])`.
The deck is never shrunk, so the same card can be drawn repeatedly;
`k` counts the stream values consumed so far. -/
def completeBoard (deck : List CardS) (rng : Nat → Nat)
    (board : List CardS) (k : Nat) : Except PyErr (List CardS × Nat) :=
  completeBoardFuel deck rng (5 - board.length) board k

/-- `for _ in range(num_opponents): opp_cards = (deck[...], deck[...])`,
again never removing the drawn cards from the deck. -/
def dealOpponents (deck : List CardS) (rng : Nat → Nat) :
    Nat → Nat → Except PyErr (List (CardS × CardS) × Nat)
  | 0, k => .ok ([], k)
  | n + 1, k =>
    match pyRandDraw deck (rng k) with
    | .error e => .error e
    | .ok c1 =>
      match pyRandDraw deck (rng (k + 1)) with
      | .error e => .error e
      | .ok c2 =>
        match dealOpponents deck rng n (k + 2) with
        | .error e => .error e
        | .ok (rest, k') => .ok ((c1, c2) :: rest, k')

/-- The card-dealing portion of one Monte Carlo iteration of
calculate_prwin (hand_evaluator.py lines 42-52): complete the board to
5 cards, then deal 2 cards per opponent, all indexed into the SAME
unchanged deck. -/
def dealRound (deck : List CardS) (board : List CardS) (numOpp : Nat)
    (rng : Nat → Nat) (k : Nat) :
    Except PyErr (List CardS × List (CardS × CardS) × Nat) :=
  match completeBoard deck rng board k with
  | .error e => .error e
  | .ok (remBoard, k1) =>
    match dealOpponents deck rng numOpp k1 with
    | .error e => .error e
    | .ok (opps, k2) => .ok (remBoard, opps, k2)

/-- Python max() of a list of scores; ValueError on the empty list
(which happens when num_opponents ≤ 0). -/
def pyMaxList (l : List Nat) : Except PyErr Nat :=
  match l with
  | [] => .error PyErr.valueError
  | h :: t => .ok (t.foldl max h)

/-- One full Monte Carlo iteration: deal, score hero and opponents,
and return the contribution to `wins` (1, 0.5 or 0). -/
def simRound (hole : CardS × CardS) (deck : List CardS)
    (board : List CardS) (numOpp : Nat) (rng : Nat → Nat) (k : Nat) :
    Except PyErr (ℚ × Nat) :=
  match dealRound deck board numOpp rng k with
  | .error e => .error e
  | .ok (remBoard, opps, k') =>
    match calculateHandScore ([hole.1, hole.2] ++ remBoard) with
    | .error e => .error e
    | .ok heroScore =>
      match mapME (fun o => calculateHandScore ([o.1, o.2] ++ remBoard)) opps with
      | .error e => .error e
      | .ok oppScores =>
        match pyMaxList oppScores with
        | .error e => .error e
        | .ok mx =>
          .ok (if mx < heroScore then (1 : ℚ)
            else if heroScore = mx then 1 / 2 else 0, k')

/-- The `for _ in range(num_simulations)` loop accumulating `wins`. -/
def simLoop (hole : CardS × CardS) (deck : List CardS)
    (board : List CardS) (numOpp : Nat) (rng : Nat → Nat) :
    Nat → Nat → ℚ → Except PyErr ℚ
  | 0, _, wins => .ok wins
  | n + 1, k, wins =>
    match simRound hole deck board numOpp rng k with
    | .error e => .error e
    | .ok (delta, k') => simLoop hole deck board numOpp rng n k' (wins + delta)

/-- HandEvaluator.calculate_prwin.  The pseudorandom source is the
injected stream `rng`; iteration counts come from Python's range()
(negative counts iterate zero times); the final `wins/num_simulations`
raises ZeroDivisionError exactly when num_simulations = 0.  The
two-character card model cannot express the `if not hole_cards[0]`
empty-string guard, which is the only omitted line. -/
def calculatePrwin (rng : Nat → Nat) (hole : CardS × CardS)
    (board : List CardS) (numOpponents : Int) (numSimulations : Int) :
    Except PyErr ℚ :=
  match simLoop hole (createDeck hole board) board numOpponents.toNat rng
      numSimulations.toNat 0 0 with
  | .error e => .error e
  | .ok wins =>
    if numSimulations = 0 then .error PyErr.zeroDivisionError
    else .ok (wins / (numSimulations : ℚ))

/-- A card whose rank char lies in RANKS (so dict lookups succeed). -/
def validCard (c : CardS) : Bool := (rankIdx? c.rank).isSome

theorem mapME_ok {α β : Type} (f : α → Except PyErr β) :
    ∀ l : List α, (∀ a ∈ l, ∃ b, f a = .ok b) →
    ∃ bs : List β, mapME f l = .ok bs ∧ bs.length = l.length := by
  intro l
  induction l with
  | nil => intro _; exact ⟨[], rfl, rfl⟩
  | cons a t ih =>
    intro h
    obtain ⟨b, hb⟩ := h a (by simp)
    obtain ⟨bs, hbs, hlen⟩ := ih (fun x hx => h x (List.mem_cons_of_mem _ hx))
    refine ⟨b :: bs, ?_, by simp [hlen]⟩
    simp [mapME, hb, hbs]

theorem scoreFiveCardHand_ok (hand : List CardS)
    (h : ∀ c ∈ hand, validCard c = true) :
    ∃ n, scoreFiveCardHand hand = .ok n := by
  have hside : ∀ c ∈ hand, ∃ b,
      (match rankIdx? c.rank with
        | some v => Except.ok v
        | none => Except.error PyErr.keyError) = Except.ok b := by
    intro c hc
    have hvc := h c hc
    unfold validCard at hvc
    obtain ⟨v, hv'⟩ := Option.isSome_iff_exists.mp hvc
    exact ⟨v, by rw [hv']⟩
  obtain ⟨vals, hv, -⟩ := mapME_ok _ hand hside
  exact ⟨scoreFromValues vals (hand.map (·.suit)), by
    unfold scoreFiveCardHand; rw [hv]⟩

theorem calculateHandScore_ok (cards : List CardS)
    (h : ∀ c ∈ cards, validCard c = true) :
    ∃ n, calculateHandScore cards = .ok n := by
  unfold calculateHandScore
  split
  · exact ⟨0, rfl⟩
  · have hside : ∀ l ∈ List.sublistsLen 5 cards, ∃ n,
        scoreFiveCardHand l = Except.ok n := by
      intro l hl
      refine scoreFiveCardHand_ok l (fun c hc => ?_)
      exact h c ((List.mem_sublistsLen.mp hl).1.subset hc)
    obtain ⟨scores, hs, -⟩ := mapME_ok scoreFiveCardHand _ hside
    exact ⟨scores.foldl max 0, by rw [hs]⟩

theorem foldl_erase_length (cs : List CardS) :
    ∀ deck : List CardS, deck.length - cs.length ≤
      (cs.foldl (fun d c => if d.contains c then d.erase c else d) deck).length := by
  induction cs with
  | nil => intro deck; simp
  | cons c t ih =>
    intro deck
    simp only [List.foldl_cons, List.length_cons]
    have h2 := ih (if deck.contains c then deck.erase c else deck)
    have h1 : deck.length - 1 ≤
        (if deck.contains c then deck.erase c else deck).length := by
      split
      · rw [List.length_erase]
        split <;> omega
      · omega
    omega

theorem foldl_erase_subset (cs : List CardS) :
    ∀ deck : List CardS,
      (cs.foldl (fun d c => if d.contains c then d.erase c else d) deck) ⊆ deck := by
  induction cs with
  | nil => intro deck; simp
  | cons c t ih =>
    intro deck
    simp only [List.foldl_cons]
    refine (ih _).trans ?_
    intro x hx
    split at hx
    · exact List.mem_of_mem_erase hx
    · exact hx

theorem fullDeck_valid : ∀ c ∈ fullDeck, validCard c = true := by decide

theorem createDeck_length (hole : CardS × CardS) (board : List CardS)
    (h : board.length ≤ 5) : 45 ≤ (createDeck hole board).length := by
  have h1 := foldl_erase_length ([hole.1, hole.2] ++ board) fullDeck
  have h2 : fullDeck.length = 52 := by decide
  have h3 : ([hole.1, hole.2] ++ board).length = 2 + board.length := by
    simp only [List.length_append, List.length_cons, List.length_nil]
  unfold createDeck
  omega

theorem createDeck_valid (hole : CardS × CardS) (board : List CardS) :
    ∀ c ∈ createDeck hole board, validCard c = true :=
  fun c hc => fullDeck_valid c (foldl_erase_subset _ fullDeck hc)

theorem pyRandDraw_ok (deck : List CardS) (r : Nat) (h : deck ≠ []) :
    ∃ c, pyRandDraw deck r = .ok c ∧ c ∈ deck := by
  match deck, h with
  | d :: t, _ =>
    have hlt : r % (d :: t).length < (d :: t).length := Nat.mod_lt _ (by simp)
    refine ⟨(d :: t).getD (r % (d :: t).length) ⟨'2', 'h'⟩, rfl, ?_⟩
    rw [List.getD_eq_getElem _ _ hlt]
    exact List.getElem_mem hlt

theorem completeBoardFuel_ok (deck : List CardS) (rng : Nat → Nat)
    (hd : deck ≠ []) (hv : ∀ c ∈ deck, validCard c = true) :
    ∀ (n : Nat) (board : List CardS) (k : Nat),
      (∀ c ∈ board, validCard c = true) →
      ∃ b' k', completeBoardFuel deck rng n board k = .ok (b', k') ∧
        ∀ c ∈ b', validCard c = true := by
  intro n
  induction n with
  | zero => intro board k hb; exact ⟨board, k, rfl, hb⟩
  | succ m ih =>
    intro board k hb
    unfold completeBoardFuel
    by_cases hlen : board.length < 5
    · simp only [hlen, if_true]
      obtain ⟨c, hc, hcm⟩ := pyRandDraw_ok deck (rng k) hd
      rw [hc]
      refine ih (board ++ [c]) (k + 1) ?_
      intro x hx
      rcases List.mem_append.mp hx with h1 | h1
      · exact hb x h1
      · rw [List.mem_singleton] at h1; subst h1; exact hv _ hcm
    · simp only [hlen, if_false]
      exact ⟨board, k, rfl, hb⟩

theorem dealOpponents_ok (deck : List CardS) (rng : Nat → Nat)
    (hd : deck ≠ []) (hv : ∀ c ∈ deck, validCard c = true) :
    ∀ (n k : Nat),
      ∃ opps k', dealOpponents deck rng n k = .ok (opps, k') ∧
        opps.length = n ∧
        ∀ p ∈ opps, validCard p.1 = true ∧ validCard p.2 = true := by
  intro n
  induction n with
  | zero => intro k; exact ⟨[], k, rfl, rfl, by simp⟩
  | succ m ih =>
    intro k
    obtain ⟨c1, hc1, hm1⟩ := pyRandDraw_ok deck (rng k) hd
    obtain ⟨c2, hc2, hm2⟩ := pyRandDraw_ok deck (rng (k + 1)) hd
    obtain ⟨rest, k', hrest, hlen, hval⟩ := ih (k + 2)
    refine ⟨(c1, c2) :: rest, k', ?_, by simp [hlen], ?_⟩
    · simp only [dealOpponents, hc1, hc2, hrest]
    · intro p hp
      rcases List.mem_cons.mp hp with h1 | h1
      · subst h1; exact ⟨hv c1 hm1, hv c2 hm2⟩
      · exact hval p h1

theorem pyMaxList_ok (l : List Nat) (h : l ≠ []) :
    ∃ m, pyMaxList l = .ok m := by
  match l, h with
  | a :: t, _ => exact ⟨t.foldl max a, rfl⟩

theorem simRound_ok (hole : CardS × CardS) (deck : List CardS)
    (board : List CardS) (numOpp : Nat) (rng : Nat → Nat) (k : Nat)
    (hd : deck ≠ []) (hv : ∀ c ∈ deck, validCard c = true)
    (hb : ∀ c ∈ board, validCard c = true)
    (hh1 : validCard hole.1 = true) (hh2 : validCard hole.2 = true)
    (hopp : 1 ≤ numOpp) :
    ∃ delta k', simRound hole deck board numOpp rng k = .ok (delta, k') ∧
      0 ≤ delta ∧ delta ≤ 1 := by
  obtain ⟨b', k1, hcb, hb'⟩ :=
    completeBoardFuel_ok deck rng hd hv (5 - board.length) board k hb
  obtain ⟨opps, k2, hdo, hlenopp, hov⟩ := dealOpponents_ok deck rng hd hv numOpp k1
  have hhero : ∀ c ∈ [hole.1, hole.2] ++ b', validCard c = true := by
    intro c hc
    rcases List.mem_append.mp hc with h1 | h1
    · rcases List.mem_cons.mp h1 with h2 | h2
      · subst h2; exact hh1
      · rw [List.mem_singleton] at h2; subst h2; exact hh2
    · exact hb' c h1
  obtain ⟨heroScore, hhs⟩ := calculateHandScore_ok _ hhero
  have hside : ∀ o ∈ opps, ∃ n,
      calculateHandScore ([o.1, o.2] ++ b') = Except.ok n := by
    intro o ho
    apply calculateHandScore_ok
    intro c hc
    rcases List.mem_append.mp hc with h1 | h1
    · rcases List.mem_cons.mp h1 with h2 | h2
      · subst h2; exact (hov o ho).1
      · rw [List.mem_singleton] at h2; subst h2; exact (hov o ho).2
    · exact hb' c h1
  obtain ⟨oppScores, hos, hoslen⟩ := mapME_ok _ opps hside
  have hne : oppScores ≠ [] := by
    intro hnil
    rw [hnil] at hoslen
    simp at hoslen
    omega
  obtain ⟨mx, hmx⟩ := pyMaxList_ok oppScores hne
  refine ⟨if mx < heroScore then (1 : ℚ) else if heroScore = mx then 1 / 2 else 0,
    k2, ?_, ?_, ?_⟩
  · simp only [simRound, dealRound, completeBoard, hcb, hdo, hhs, hos, hmx]
  · by_cases h1 : mx < heroScore
    · simp [h1]
    · by_cases h2 : heroScore = mx <;> simp [h1, h2] <;> norm_num
  · by_cases h1 : mx < heroScore
    · simp [h1]
    · by_cases h2 : heroScore = mx <;> simp [h1, h2] <;> norm_num

theorem simLoop_ok (hole : CardS × CardS) (deck : List CardS)
    (board : List CardS) (numOpp : Nat) (rng : Nat → Nat)
    (hd : deck ≠ []) (hv : ∀ c ∈ deck, validCard c = true)
    (hb : ∀ c ∈ board, validCard c = true)
    (hh1 : validCard hole.1 = true) (hh2 : validCard hole.2 = true)
    (hopp : 1 ≤ numOpp) :
    ∀ (n k : Nat) (wins : ℚ),
      ∃ w, simLoop hole deck board numOpp rng n k wins = .ok w ∧
        wins ≤ w ∧ w ≤ wins + n := by
  intro n
  induction n with
  | zero => intro k wins; exact ⟨wins, rfl, le_refl _, by simp⟩
  | succ m ih =>
    intro k wins
    obtain ⟨delta, k', hsr, hd0, hd1⟩ :=
      simRound_ok hole deck board numOpp rng k hd hv hb hh1 hh2 hopp
    obtain ⟨w, hw, hw1, hw2⟩ := ih k' (wins + delta)
    refine ⟨w, ?_, by linarith, ?_⟩
    · simp only [simLoop, hsr]
      exact hw
    · push_cast
      push_cast at hw2
      linarith

/-- Claim C3 (amended part).  The equity estimator never clamps, but
for every num_simulations ≥ 1, every opponent_count ≥ 1, valid hole
cards and a board of at most 5 valid cards it does return a value in
[0, 1], for any pseudorandom stream. -/
theorem calculate_prwin_unit_interval (rng : Nat → Nat)
    (hole : CardS × CardS) (board : List CardS)
    (numOpponents numSimulations : Int)
    (hh1 : validCard hole.1 = true) (hh2 : validCard hole.2 = true)
    (hb : ∀ c ∈ board, validCard c = true) (hblen : board.length ≤ 5)
    (hN : 1 ≤ numSimulations) (hopp : 1 ≤ numOpponents) :
    ∃ p, calculatePrwin rng hole board numOpponents numSimulations = .ok p ∧
      0 ≤ p ∧ p ≤ 1 := by
  have hdl := createDeck_length hole board hblen
  have hd : createDeck hole board ≠ [] := by
    intro hnil; rw [hnil] at hdl; simp at hdl
  have hv := createDeck_valid hole board
  obtain ⟨w, hw, hw1, hw2⟩ := simLoop_ok hole (createDeck hole board) board
    numOpponents.toNat rng hd hv hb hh1 hh2 (by omega)
    numSimulations.toNat 0 0
  have hNne : ¬ (numSimulations = 0) := by omega
  have hpos : (0 : ℚ) < (numSimulations : ℚ) := by
    exact_mod_cast (by omega : (0 : Int) < numSimulations)
  refine ⟨w / (numSimulations : ℚ), ?_, ?_, ?_⟩
  · simp only [calculatePrwin, hw, hNne, if_false]
  · exact div_nonneg hw1 hpos.le
  · rw [div_le_one hpos]
    have hcast : ((numSimulations.toNat : ℚ)) = (numSimulations : ℚ) := by
      exact_mod_cast Int.toNat_of_nonneg (by omega : (0 : Int) ≤ numSimulations)
    rw [zero_add] at hw2
    rw [← hcast]
    exact hw2

/-- Witness for calculate_prwin_unit_interval at a concrete input. -/
theorem calculate_prwin_unit_interval_witness :
    ∃ p, calculatePrwin (fun _ => 0) (⟨'A', 'h'⟩, ⟨'A', 'd'⟩) [] 1 2 = .ok p ∧
      0 ≤ p ∧ p ≤ 1 :=
  calculate_prwin_unit_interval (fun _ => 0) (⟨'A', 'h'⟩, ⟨'A', 'd'⟩) [] 1 2
    (by decide) (by decide) (by decide) (by decide) (by decide) (by decide)

/-- Claim C3 (counterexample).  The spec says N ≤ 0 is treated as
N = 1 and opponent_count outside [1, 8] as 1, so every input yields a
probability.  Instead num_simulations = 0 raises ZeroDivisionError at
`wins / num_simulations`, and opponent_count = 0 raises ValueError at
`max(opponent_scores)` over an empty list: no clamping exists. -/
theorem calculate_prwin_no_clamping :
    calculatePrwin (fun _ => 0) (⟨'A', 'h'⟩, ⟨'A', 'd'⟩) [] 1 0 =
      .error PyErr.zeroDivisionError ∧
    calculatePrwin (fun _ => 0) (⟨'A', 'h'⟩, ⟨'A', 'd'⟩) [] 0 5 =
      .error PyErr.valueError := by
  refine ⟨by decide, by decide⟩

/-- Claim C4.  The spec says each Monte Carlo iteration deals the board
completion and the opponents' cards WITHOUT replacement, so all dealt
cards are pairwise distinct and disjoint from the hole and existing
community cards.  The code draws `deck[random.randint(0, len(deck)-1)]`
without ever removing drawn cards, so a stream that repeats an index
deals the same card again and again: with the all-zero stream, hole
cards Ah Ad and an empty board, the dealt board is five copies of 2h
and the single opponent receives 2h 2h — not pairwise distinct. -/
theorem monte_carlo_deals_with_replacement :
    dealRound (createDeck (⟨'A', 'h'⟩, ⟨'A', 'd'⟩) []) [] 1 (fun _ => 0) 0 =
      .ok ([⟨'2', 'h'⟩, ⟨'2', 'h'⟩, ⟨'2', 'h'⟩, ⟨'2', 'h'⟩, ⟨'2', 'h'⟩],
        [(⟨'2', 'h'⟩, ⟨'2', 'h'⟩)], 7) ∧
    ¬ ([⟨'2', 'h'⟩, ⟨'2', 'h'⟩, ⟨'2', 'h'⟩, ⟨'2', 'h'⟩,
        ⟨'2', 'h'⟩] : List CardS).Nodup := by
  refine ⟨by decide, by decide⟩

/-- poker_enums.Suit. -/
inductive Suit where
  | clubs
  | diamonds
  | hearts
  | spades
  deriving DecidableEq, Repr

/-- Suit.value (the suit character). -/
def Suit.char : Suit → Char
  | .clubs => 'c'
  | .diamonds => 'd'
  | .hearts => 'h'
  | .spades => 's'

/-- Python int() on a single character: the digit value, ValueError
otherwise. -/
def pyInt? (c : Char) : Option Nat :=
  if '0' ≤ c ∧ c ≤ '9' then some (c.toNat - '0'.toNat) else none

/-- poker_enums.Rank.from_char followed by the Rank() constructor:
letters map to their face value, other characters go through
int(char) (ValueError on a non-digit) and Rank(n) (ValueError unless
2 ≤ n ≤ 14). -/
def rankFromChar (c : Char) : Except PyErr Nat :=
  if c = 'A' then .ok 14
  else if c = 'K' then .ok 13
  else if c = 'Q' then .ok 12
  else if c = 'J' then .ok 11
  else if c = 'T' then .ok 10
  else
    match pyInt? c with
    | none => .error PyErr.valueError
    | some n => if 2 ≤ n ∧ n ≤ 14 then .ok n else .error PyErr.valueError

/-- poker_enums.Suit.from_char. -/
def suitFromChar (c : Char) : Except PyErr Suit :=
  if c = 'c' then .ok .clubs
  else if c = 'd' then .ok .diamonds
  else if c = 'h' then .ok .hearts
  else if c = 's' then .ok .spades
  else .error PyErr.valueError

/-- poker_enums.Card: rank 2..14 plus suit. -/
structure PCard where
  rank : Nat
  suit : Suit
  deriving DecidableEq, Repr

/-- poker_enums.Card.from_string: upper-cases the rank char,
lower-cases the suit char, then parses both (Python str.upper/lower on
the ASCII card characters coincide with Char.toUpper/toLower). -/
def cardFromString (cs : Char × Char) : Except PyErr PCard :=
  match rankFromChar cs.1.toUpper with
  | .error e => .error e
  | .ok r =>
    match suitFromChar cs.2.toLower with
    | .error e => .error e
    | .ok s => .ok ⟨r, s⟩

/-- poker_enums.Card.__str__ rank character: the A/K/Q/J/T dictionary
with str(rank.value) as the fallback, which is a single digit char for
the remaining members 2..9. -/
def rankStr (r : Nat) : Char :=
  if r = 14 then 'A'
  else if r = 13 then 'K'
  else if r = 12 then 'Q'
  else if r = 11 then 'J'
  else if r = 10 then 'T'
  else Char.ofNat ('0'.toNat + r)

/-- poker_enums.Card.__str__: rank char followed by the (lower-case)
suit value char. -/
def cardToString (c : PCard) : Char × Char := (rankStr c.rank, c.suit.char)

/-- All 52 canonical card strings (upper-case rank, lower-case suit). -/
def allCardStrings : List (Char × Char) :=
  rankChars.flatMap (fun r => suitChars.map (fun s => (r, s)))

/-- Claim C9.  Parsing each of the 52 canonical two-character card
strings with Card.from_string and formatting the result back with
Card.__str__ returns the original string: parse ∘ format is the
identity on all 52 cards. -/
theorem card_string_round_trip :
    allCardStrings.all (fun cs =>
      match cardFromString cs with
      | .ok c => cardToString c = cs
      | .error _ => false) = true := by decide

/-- BoardTextureSymbols.is_paired_board. -/
def isPairedBoard (b : List PCard) : Bool :=
  if b.length < 2 then false
  else (b.map (·.rank)).dedup.length < (b.map (·.rank)).length

/-- BoardTextureSymbols.is_trips_on_board. -/
def isTripsOnBoard (b : List PCard) : Bool :=
  if b.length < 3 then false
  else
    let ranks := b.map (·.rank)
    ranks.any (fun r => 3 ≤ ranks.count r)

/-- BoardTextureSymbols.is_two_pair_on_board. -/
def isTwoPairOnBoard (b : List PCard) : Bool :=
  if b.length < 4 then false
  else
    let ranks := b.map (·.rank)
    2 ≤ (ranks.dedup.filter (fun r => 2 ≤ ranks.count r)).length

/-- BoardTextureSymbols.is_full_house_on_board. -/
def isFullHouseOnBoard (b : List PCard) : Bool :=
  if b.length < 5 then false
  else
    let ranks := b.map (·.rank)
    let hasTrips := ranks.any (fun r => 3 ≤ ranks.count r)
    let pairs := ranks.dedup.filter (fun r => 2 ≤ ranks.count r)
    if hasTrips ∧ 2 ≤ pairs.length then true
    else
      ranks.any (fun r => 3 ≤ ranks.count r) &&
        ranks.any (fun r => ranks.count r = 2)

/-- BoardTextureSymbols.is_quads_on_board. -/
def isQuadsOnBoard (b : List PCard) : Bool :=
  if b.length < 4 then false
  else
    let ranks := b.map (·.rank)
    ranks.any (fun r => 4 ≤ ranks.count r)

/-- BoardTextureSymbols.flush_possible: the maximal suit multiplicity
reaches 3 (on boards of at least 3 cards). -/
def flushPossibleB (b : List PCard) : Bool :=
  if b.length < 3 then false
  else
    let suits := b.map (·.suit)
    3 ≤ maxNat (suits.dedup.map (fun s => suits.count s))

/-- BoardTextureSymbols.is_monotone_board. -/
def isMonotoneBoard (b : List PCard) : Bool :=
  if b.isEmpty then false
  else (b.map (·.suit)).dedup.length = 1

/-- The consecutive-run counter of is_very_connected_board: walks the
sorted rank list keeping the current and maximal run of +1 steps. -/
def maxRunAux : List Nat → Nat → Nat → Nat → Nat
  | [], _, _, best => best
  | x :: rest, prev, cur, best =>
    if x = prev + 1 then maxRunAux rest x (cur + 1) (max best (cur + 1))
    else maxRunAux rest x 1 best

/-- BoardTextureSymbols.is_very_connected_board: 3+ consecutive ranks. -/
def isVeryConnectedBoard (b : List PCard) : Bool :=
  if b.length < 3 then false
  else
    match sortNat (b.map (·.rank)) with
    | [] => false
    | h :: t => 3 ≤ maxRunAux t h 1 1

/-- BoardTextureSymbols.straight_possible: some 5-rank window i..i+4
(i in 1..10) holding at least 3 distinct board ranks. -/
def straightPossibleB (b : List PCard) : Bool :=
  if b.length < 3 then false
  else
    (List.range' 1 10).any (fun i =>
      3 ≤ ((b.map (·.rank)).dedup.filter (fun r => i ≤ r ∧ r ≤ i + 4)).length)

/-- BoardTextureSymbols.number_of_straight_possibilities. -/
def numberOfStraightPossibilities (b : List PCard) : Nat :=
  if b.length < 3 then 0
  else
    ((List.range' 1 10).filter (fun i =>
      3 ≤ ((b.map (·.rank)).dedup.filter (fun r => i ≤ r ∧ r ≤ i + 4)).length)).length

/-- BoardTextureSymbols.board_connectedness: 1 − capped-gap sum over
(len−1)·12, raising ZeroDivisionError on a single-card board, with the
≥3-high-cards floor of 0.8; duplicate ranks contribute −1 to the gap
sum, hence the integer arithmetic. -/
def boardConnectedness (b : List PCard) : Except PyErr ℚ :=
  if b.isEmpty then .ok 0
  else
    let ranks := sortNat (b.map (·.rank))
    let totalGaps : Int := (adjacentPairs ranks).foldl
      (fun acc p => acc + min ((p.2 : Int) - (p.1 : Int) - 1) 4) 0
    let maxPossible : Int := ((b.length : Int) - 1) * 12
    if maxPossible = 0 then .error PyErr.zeroDivisionError
    else
      let conn : ℚ := 1 - (totalGaps : ℚ) / (maxPossible : ℚ)
      .ok (if 3 ≤ b.length ∧ 3 ≤ (b.filter (fun c => 10 ≤ c.rank)).length
        then max conn (4 / 5) else conn)

/-- The two hard-coded flops of board_danger_level: the board contains
Ah, 5d and 2c (first case) or Ah, Kh and 2c (second case), compared by
the cards' string forms in the source. -/
def isSpecialFlop1 (b : List PCard) : Bool :=
  b.any (fun c => c.rank = 14 && c.suit = .hearts) &&
  b.any (fun c => c.rank = 5 && c.suit = .diamonds) &&
  b.any (fun c => c.rank = 2 && c.suit = .clubs)

/-- Second hard-coded flop (Ah, Kh, 2c). -/
def isSpecialFlop2 (b : List PCard) : Bool :=
  b.any (fun c => c.rank = 14 && c.suit = .hearts) &&
  b.any (fun c => c.rank = 13 && c.suit = .hearts) &&
  b.any (fun c => c.rank = 2 && c.suit = .clubs)

/-- BoardTextureSymbols.board_danger_level: the additive contributions,
the two hard-coded 3-card special cases raising the score to at least
0.3, and the final cap at 1.0. -/
def boardDangerLevel (b : List PCard) : Except PyErr ℚ :=
  match boardConnectedness b with
  | .error e => .error e
  | .ok conn =>
    let danger : ℚ :=
      (if isPairedBoard b then 1 / 5 else 0) +
      (if isTripsOnBoard b then 3 / 10 else 0) +
      (if isTwoPairOnBoard b then 1 / 5 else 0) +
      (if isFullHouseOnBoard b then 2 / 5 else 0) +
      (if isQuadsOnBoard b then 1 / 2 else 0) +
      (if flushPossibleB b then 1 / 5 else 0) +
      (if straightPossibleB b then 1 / 5 else 0) +
      (if 1 < numberOfStraightPossibilities b then 1 / 5 else 0) +
      conn * (1 / 5)
    let danger2 := if b.length = 3 ∧ (isSpecialFlop1 b || isSpecialFlop2 b) = true
      then max danger (3 / 10) else danger
    .ok (min danger2 1)

/-- BoardTextureSymbols.is_dry_board: danger < 0.3. -/
def isDryBoard (b : List PCard) : Except PyErr Bool :=
  match boardDangerLevel b with
  | .error e => .error e
  | .ok d => .ok (decide (d < 3 / 10))

/-- BoardTextureSymbols.is_wet_board: danger > 0.6. -/
def isWetBoard (b : List PCard) : Except PyErr Bool :=
  match boardDangerLevel b with
  | .error e => .error e
  | .ok d => .ok (decide (3 / 5 < d))

/-- BoardTextureSymbols.is_semi_wet_board: 0.3 ≤ danger ≤ 0.6. -/
def isSemiWetBoard (b : List PCard) : Except PyErr Bool :=
  match boardDangerLevel b with
  | .error e => .error e
  | .ok d => .ok (decide (3 / 10 ≤ d ∧ d ≤ 3 / 5))

/-- Modelled from the claim's wording (C7): the danger score as the
plain sum of the listed contributions — paired +0.2, trips +0.3,
two-pair +0.2, full-house +0.4, quads +0.5, flush-possible +0.2,
straight-possible +0.2, multiple straight possibilities +0.2, plus
connectedness × 0.2 — with no further adjustment before the 1.0 cap. -/
def claimListedSum (b : List PCard) (conn : ℚ) : ℚ :=
  (if isPairedBoard b then 1 / 5 else 0) +
  (if isTripsOnBoard b then 3 / 10 else 0) +
  (if isTwoPairOnBoard b then 1 / 5 else 0) +
  (if isFullHouseOnBoard b then 2 / 5 else 0) +
  (if isQuadsOnBoard b then 1 / 2 else 0) +
  (if flushPossibleB b then 1 / 5 else 0) +
  (if straightPossibleB b then 1 / 5 else 0) +
  (if 1 < numberOfStraightPossibilities b then 1 / 5 else 0) +
  conn * (1 / 5)

/-- Claim C7 (amended part).  On every board of 3 to 5 cards OTHER
than the two hard-coded flops Ah-5d-2c and Ah-Kh-2c, the danger score
is exactly the sum of the listed contributions capped at 1.0, and the
texture thresholds are: Dry below 0.3, SemiWet from 0.3 to 0.6, Wet
above 0.6. -/
theorem board_danger_level_formula (b : List PCard)
    (h3 : 3 ≤ b.length) (h5 : b.length ≤ 5)
    (hs : ¬ (b.length = 3 ∧ (isSpecialFlop1 b || isSpecialFlop2 b) = true)) :
    ∃ conn, boardConnectedness b = .ok conn ∧
      boardDangerLevel b = .ok (min (claimListedSum b conn) 1) ∧
      isDryBoard b = .ok (decide (min (claimListedSum b conn) 1 < 3 / 10)) ∧
      isSemiWetBoard b = .ok (decide (3 / 10 ≤ min (claimListedSum b conn) 1 ∧
        min (claimListedSum b conn) 1 ≤ 3 / 5)) ∧
      isWetBoard b = .ok (decide (3 / 5 < min (claimListedSum b conn) 1)) := by
  have hne : ¬ b.isEmpty := by
    cases b with
    | nil => simp at h3
    | cons x t => simp
  have hmp : ¬ (((b.length : Int) - 1) * 12 = 0) := by
    intro hz
    have : (b.length : Int) = 1 := by
      rcases mul_eq_zero.mp hz with h | h
      · omega
      · omega
    omega
  obtain ⟨conn, hconn⟩ : ∃ conn, boardConnectedness b = .ok conn := by
    unfold boardConnectedness
    simp only [hne, if_false, hmp]
    exact ⟨_, rfl⟩
  have hdl : boardDangerLevel b = .ok (min (claimListedSum b conn) 1) := by
    unfold boardDangerLevel
    rw [hconn]
    simp only [hs, if_false]
    rfl
  refine ⟨conn, hconn, hdl, ?_, ?_, ?_⟩
  · unfold isDryBoard; rw [hdl]
  · unfold isSemiWetBoard; rw [hdl]
  · unfold isWetBoard; rw [hdl]

/-- Witness for board_danger_level_formula on the flop Kh-7d-2c. -/
theorem board_danger_level_formula_witness :
    ∃ conn, boardConnectedness [⟨13, .hearts⟩, ⟨7, .diamonds⟩, ⟨2, .clubs⟩] =
        .ok conn ∧
      boardDangerLevel [⟨13, .hearts⟩, ⟨7, .diamonds⟩, ⟨2, .clubs⟩] =
        .ok (min (claimListedSum [⟨13, .hearts⟩, ⟨7, .diamonds⟩, ⟨2, .clubs⟩] conn) 1) ∧
      isDryBoard [⟨13, .hearts⟩, ⟨7, .diamonds⟩, ⟨2, .clubs⟩] =
        .ok (decide (min (claimListedSum [⟨13, .hearts⟩, ⟨7, .diamonds⟩, ⟨2, .clubs⟩] conn) 1 < 3 / 10)) ∧
      isSemiWetBoard [⟨13, .hearts⟩, ⟨7, .diamonds⟩, ⟨2, .clubs⟩] =
        .ok (decide (3 / 10 ≤ min (claimListedSum [⟨13, .hearts⟩, ⟨7, .diamonds⟩, ⟨2, .clubs⟩] conn) 1 ∧
          min (claimListedSum [⟨13, .hearts⟩, ⟨7, .diamonds⟩, ⟨2, .clubs⟩] conn) 1 ≤ 3 / 5)) ∧
      isWetBoard [⟨13, .hearts⟩, ⟨7, .diamonds⟩, ⟨2, .clubs⟩] =
        .ok (decide (3 / 5 < min (claimListedSum [⟨13, .hearts⟩, ⟨7, .diamonds⟩, ⟨2, .clubs⟩] conn) 1)) :=
  board_danger_level_formula [⟨13, .hearts⟩, ⟨7, .diamonds⟩, ⟨2, .clubs⟩]
    (by decide) (by decide) (by decide)

/-- Claim C7 (counterexample).  On the flop Ah-5d-2c the claimed
formula (sum of listed contributions, capped) gives 0.15, but
board_danger_level hard-codes `danger = max(danger, 0.3)` for this
exact board and returns 0.3: the danger score is NOT always the sum of
the listed contributions. -/
theorem danger_level_special_case_board :
    boardConnectedness [⟨14, .hearts⟩, ⟨5, .diamonds⟩, ⟨2, .clubs⟩] =
      .ok (3 / 4) ∧
    min (claimListedSum [⟨14, .hearts⟩, ⟨5, .diamonds⟩, ⟨2, .clubs⟩] (3 / 4)) 1 =
      3 / 20 ∧
    boardDangerLevel [⟨14, .hearts⟩, ⟨5, .diamonds⟩, ⟨2, .clubs⟩] =
      .ok (3 / 10) ∧
    (3 / 10 : ℚ) ≠ 3 / 20 := by
  have e1 : isPairedBoard [⟨14, .hearts⟩, ⟨5, .diamonds⟩, ⟨2, .clubs⟩] = false := by decide
  have e2 : isTripsOnBoard [⟨14, .hearts⟩, ⟨5, .diamonds⟩, ⟨2, .clubs⟩] = false := by decide
  have e3 : isTwoPairOnBoard [⟨14, .hearts⟩, ⟨5, .diamonds⟩, ⟨2, .clubs⟩] = false := by decide
  have e4 : isFullHouseOnBoard [⟨14, .hearts⟩, ⟨5, .diamonds⟩, ⟨2, .clubs⟩] = false := by decide
  have e5 : isQuadsOnBoard [⟨14, .hearts⟩, ⟨5, .diamonds⟩, ⟨2, .clubs⟩] = false := by decide
  have e6 : flushPossibleB [⟨14, .hearts⟩, ⟨5, .diamonds⟩, ⟨2, .clubs⟩] = false := by decide
  have e7 : straightPossibleB [⟨14, .hearts⟩, ⟨5, .diamonds⟩, ⟨2, .clubs⟩] = false := by decide
  have e8 : numberOfStraightPossibilities [⟨14, .hearts⟩, ⟨5, .diamonds⟩, ⟨2, .clubs⟩] = 0 := by
    decide
  have e9 : isSpecialFlop1 [⟨14, .hearts⟩, ⟨5, .diamonds⟩, ⟨2, .clubs⟩] = true := by decide
  have h1 : boardConnectedness [⟨14, .hearts⟩, ⟨5, .diamonds⟩, ⟨2, .clubs⟩] = .ok (3 / 4) := by
    unfold boardConnectedness
    norm_num [sortNat, List.insertionSort, List.orderedInsert, adjacentPairs]
  have h2 : min (claimListedSum [⟨14, .hearts⟩, ⟨5, .diamonds⟩, ⟨2, .clubs⟩] (3 / 4)) 1 =
      3 / 20 := by
    unfold claimListedSum
    rw [e1, e2, e3, e4, e5, e6, e7, e8]
    norm_num
  have h3 : boardDangerLevel [⟨14, .hearts⟩, ⟨5, .diamonds⟩, ⟨2, .clubs⟩] = .ok (3 / 10) := by
    unfold boardDangerLevel
    rw [h1, e1, e2, e3, e4, e5, e6, e7, e8, e9]
    norm_num
  exact ⟨h1, h2, h3, by norm_num⟩

/-- Player names as table_state constructs them: "Bot" for the hero
seat, "Player_{seat}" otherwise (the formatting is injective, so the
strings are modelled by this inductive). -/
inductive PName where
  | bot
  | player (seat : Int)
  deriving DecidableEq, Repr

/-- One entry of the per-street action lists: the dict
{'player', 'action', 'amount'}. -/
structure ActionData where
  player : PName
  action : Action
  amount : Option ℚ
  deriving DecidableEq, Repr

/-- A total map over the four streets (the street-keyed dicts). -/
structure StreetMap (α : Type) where
  pre : α
  flo : α
  tur : α
  riv : α
  deriving DecidableEq, Repr

/-- Read a street entry. -/
def StreetMap.get {α : Type} (m : StreetMap α) : Street → α
  | .preflop => m.pre
  | .flop => m.flo
  | .turn => m.tur
  | .river => m.riv

/-- Write a street entry. -/
def StreetMap.set {α : Type} (m : StreetMap α) : Street → α → StreetMap α
  | .preflop, a => { m with pre := a }
  | .flop, a => { m with flo := a }
  | .turn, a => { m with tur := a }
  | .river, a => { m with riv := a }

/-- Constant street map (the reset initialisers). -/
def StreetMap.const {α : Type} (a : α) : StreetMap α := ⟨a, a, a, a⟩

/-- State of BettingActionSymbols (betting_action_symbols.py reset()). -/
structure BettingState where
  actionsByStreet : StreetMap (List ActionData)
  botActionsByStreet : StreetMap (List ActionData)
  oppActionsByStreet : StreetMap (List ActionData)
  lastAggressorByStreet : StreetMap (Option PName)
  isContinuationBetSituation : Bool
  isCheckRaiseSituation : Bool
  isThreeBetSituation : Bool
  isFourBetSituation : Bool
  isDonkBetSituation : Bool
  isProbeBetSituation : Bool
  isFloatBetSituation : Bool
  raisesCurrentStreet : Nat
  callsCurrentStreet : Nat
  checksCurrentStreet : Nat
  botLastAction : Option Action
  botLastActionByStreet : StreetMap (Option Action)
  deriving DecidableEq, Repr

/-- BettingActionSymbols.reset(). -/
def resetBetting : BettingState where
  actionsByStreet := StreetMap.const []
  botActionsByStreet := StreetMap.const []
  oppActionsByStreet := StreetMap.const []
  lastAggressorByStreet := StreetMap.const none
  isContinuationBetSituation := false
  isCheckRaiseSituation := false
  isThreeBetSituation := false
  isFourBetSituation := false
  isDonkBetSituation := false
  isProbeBetSituation := false
  isFloatBetSituation := false
  raisesCurrentStreet := 0
  callsCurrentStreet := 0
  checksCurrentStreet := 0
  botLastAction := none
  botLastActionByStreet := StreetMap.const none

/-- BettingActionSymbols._bot_raised_preflop. -/
def botRaisedPreflop (st : BettingState) : Bool :=
  (st.botActionsByStreet.get .preflop).any (fun a => a.action = .raise)

/-- BettingActionSymbols._player_checked_this_street. -/
def playerCheckedThisStreet (st : BettingState) (p : PName) (street : Street) : Bool :=
  (st.actionsByStreet.get street).any (fun a => a.player = p && a.action = .check)

/-- Scan of _bet_after_player_checked: once the player's check has been
seen, any later raise answers true. -/
def betAfterScan (p : PName) : List ActionData → Bool → Bool
  | [], _ => false
  | a :: rest, checked =>
    if a.player = p ∧ a.action = .check then betAfterScan p rest true
    else if checked ∧ a.action = .raise then true
    else betAfterScan p rest checked

/-- BettingActionSymbols._bet_after_player_checked. -/
def betAfterPlayerChecked (st : BettingState) (p : PName) (street : Street) : Bool :=
  betAfterScan p (st.actionsByStreet.get street) false

/-- BettingActionSymbols._is_out_of_position: a placeholder that always
returns True in the source. -/
def isOutOfPosition (_p : PName) : Bool := true

/-- Predecessor street of _was_bot_aggressor_previous_street and
_bot_called_previous_street. -/
def prevStreet : Street → Option Street
  | .preflop => none
  | .flop => some .preflop
  | .turn => some .flop
  | .river => some .turn

/-- BettingActionSymbols._was_bot_aggressor_previous_street. -/
def wasBotAggressorPreviousStreet (st : BettingState) (street : Street) : Bool :=
  match prevStreet street with
  | none => false
  | some prev => st.lastAggressorByStreet.get prev = some .bot

/-- BettingActionSymbols._opponent_checked_this_street. -/
def opponentCheckedThisStreet (st : BettingState) (street : Street) : Bool :=
  (st.oppActionsByStreet.get street).any (fun a => a.action = .check)

/-- BettingActionSymbols._bot_called_previous_street. -/
def botCalledPreviousStreet (st : BettingState) (street : Street) : Bool :=
  match prevStreet street with
  | none => false
  | some prev => (st.botActionsByStreet.get prev).any (fun a => a.action = .call)

/-- BettingActionSymbols._update_betting_patterns, called on the state
in which the action has already been appended and the counters
updated.  The Python method assigns the seven flags one after another,
but none of the seven conditions reads any of the seven flags (they
read only the action lists, the counters and the aggressor map), so
the sequential assignments are equivalently written as one
simultaneous update. -/
def updateBettingPatterns (st : BettingState) (street : Street) (player : PName)
    (action : Action) (isBot : Bool) : BettingState :=
  { st with
    isContinuationBetSituation :=
      if street = .flop ∧ action = .raise ∧ isBot = true ∧
          botRaisedPreflop st = true
        then true else st.isContinuationBetSituation,
    isCheckRaiseSituation :=
      if action = .raise ∧ playerCheckedThisStreet st player street = true ∧
          betAfterPlayerChecked st player street = true
        then true else st.isCheckRaiseSituation,
    isThreeBetSituation :=
      if action = .raise ∧ 2 ≤ st.raisesCurrentStreet
        then true else st.isThreeBetSituation,
    isFourBetSituation :=
      if action = .raise ∧ 3 ≤ st.raisesCurrentStreet
        then true else st.isFourBetSituation,
    isDonkBetSituation :=
      if street ≠ .preflop ∧ action = .raise ∧ isBot = false ∧
          isOutOfPosition player = true ∧
          wasBotAggressorPreviousStreet st street = true
        then true else st.isDonkBetSituation,
    isProbeBetSituation :=
      if street ≠ .preflop ∧ action = .raise ∧ isBot = true ∧
          isOutOfPosition player = false ∧
          opponentCheckedThisStreet st street = true
        then true else st.isProbeBetSituation,
    isFloatBetSituation :=
      if street ≠ .preflop ∧ action = .raise ∧ isBot = true ∧
          botCalledPreviousStreet st street = true
        then true else st.isFloatBetSituation }

/-- BettingActionSymbols.record_action: append the action, update the
counters and the per-street aggressor, then refresh the pattern flags.
`raises_current_street` is incremented on every Raise or AllIn of the
hand and never reset per street (only reset() clears it). -/
def recordBetting (st : BettingState) (street : Street) (player : PName)
    (action : Action) (amount : Option ℚ) (isBot : Bool) : BettingState :=
  let ad : ActionData := ⟨player, action, amount⟩
  let st := { st with
    actionsByStreet :=
      st.actionsByStreet.set street (st.actionsByStreet.get street ++ [ad]) }
  let st := if isBot then
      { st with
        botActionsByStreet :=
          st.botActionsByStreet.set street (st.botActionsByStreet.get street ++ [ad]),
        botLastAction := some action,
        botLastActionByStreet := st.botLastActionByStreet.set street (some action) }
    else
      { st with
        oppActionsByStreet :=
          st.oppActionsByStreet.set street (st.oppActionsByStreet.get street ++ [ad]) }
  let st := if action = .raise ∨ action = .allIn then
      { st with
        raisesCurrentStreet := st.raisesCurrentStreet + 1,
        lastAggressorByStreet := st.lastAggressorByStreet.set street (some player) }
    else if action = .call then
      { st with callsCurrentStreet := st.callsCurrentStreet + 1 }
    else if action = .check then
      { st with checksCurrentStreet := st.checksCurrentStreet + 1 }
    else st
  updateBettingPatterns st street player action isBot

/-- One record_action input (street, player, action, amount, is_bot). -/
structure RecIn where
  street : Street
  player : PName
  action : Action
  amount : Option ℚ
  isBot : Bool
  deriving DecidableEq, Repr

/-- A sequence of record_action calls starting from reset() (the state
at the start of a hand). -/
def runRecords (recs : List RecIn) : BettingState :=
  recs.foldl (fun st r => recordBetting st r.street r.player r.action r.amount r.isBot)
    resetBetting

/-- Contribution of one action to raises_current_street. -/
def raVal (a : Action) : Nat := if a = .raise ∨ a = .allIn then 1 else 0

/-- Total raises/all-ins of a record sequence (across all streets). -/
def countRA (recs : List RecIn) : Nat := (recs.map (fun r => raVal r.action)).sum

/-- Raise/all-in trigger scan: true when some entry is a Raise made
with the hand-wide raise counter (starting from `base`) at 2 or more
after counting it. -/
def anyTriggers : Nat → List RecIn → Bool
  | _, [] => false
  | base, r :: rest =>
    (decide (r.action = .raise) && decide (2 ≤ base + raVal r.action)) ||
    anyTriggers (base + raVal r.action) rest

theorem updatePatterns_raises (st : BettingState) (street : Street) (p : PName)
    (a : Action) (b : Bool) :
    (updateBettingPatterns st street p a b).raisesCurrentStreet =
      st.raisesCurrentStreet := rfl

theorem updatePatterns_threeBet (st : BettingState) (street : Street) (p : PName)
    (a : Action) (b : Bool) :
    (updateBettingPatterns st street p a b).isThreeBetSituation =
      (if a = .raise ∧ 2 ≤ st.raisesCurrentStreet then true
        else st.isThreeBetSituation) := rfl

theorem recordBetting_raises (st : BettingState) (street : Street) (player : PName)
    (action : Action) (amount : Option ℚ) (isBot : Bool) :
    (recordBetting st street player action amount isBot).raisesCurrentStreet =
      st.raisesCurrentStreet + raVal action := by
  unfold recordBetting
  rw [updatePatterns_raises]
  cases action <;> cases isBot <;> simp [raVal]

theorem recordBetting_threeBet (st : BettingState) (street : Street) (player : PName)
    (action : Action) (amount : Option ℚ) (isBot : Bool) :
    (recordBetting st street player action amount isBot).isThreeBetSituation =
      (st.isThreeBetSituation ||
        (decide (action = .raise) &&
          decide (2 ≤ st.raisesCurrentStreet + raVal action))) := by
  unfold recordBetting
  rw [updatePatterns_threeBet]
  cases action <;> cases isBot <;>
    simp only [raVal] <;>
    first
      | simp [Bool.or_comm]
      | (by_cases h2 : 2 ≤ st.raisesCurrentStreet + 1 <;> simp [h2, Bool.or_comm])

theorem foldlBetting_raises (recs : List RecIn) :
    ∀ st : BettingState,
      ((recs.foldl (fun st r =>
        recordBetting st r.street r.player r.action r.amount r.isBot) st)).raisesCurrentStreet =
      st.raisesCurrentStreet + countRA recs := by
  induction recs with
  | nil => intro st; simp [countRA]
  | cons r t ih =>
    intro st
    simp only [List.foldl_cons]
    rw [ih, recordBetting_raises]
    simp [countRA]
    omega

theorem foldlBetting_threeBet (recs : List RecIn) :
    ∀ st : BettingState,
      ((recs.foldl (fun st r =>
        recordBetting st r.street r.player r.action r.amount r.isBot) st)).isThreeBetSituation =
      (st.isThreeBetSituation || anyTriggers st.raisesCurrentStreet recs) := by
  induction recs with
  | nil => intro st; simp [anyTriggers]
  | cons r t ih =>
    intro st
    simp only [List.foldl_cons]
    rw [ih, recordBetting_threeBet, recordBetting_raises]
    simp [anyTriggers, Bool.or_assoc]

theorem anyTriggers_iff (recs : List RecIn) :
    ∀ base : Nat,
      anyTriggers base recs = true ↔
        ∃ i, ∃ h : i < recs.length, (recs.get ⟨i, h⟩).action = .raise ∧
          2 ≤ base + countRA (recs.take (i + 1)) := by
  induction recs with
  | nil => intro base; simp [anyTriggers]
  | cons r t ih =>
    intro base
    simp only [anyTriggers, Bool.or_eq_true, Bool.and_eq_true, decide_eq_true_eq]
    constructor
    · rintro (⟨hr, hc⟩ | h)
      · refine ⟨0, by simp, by simpa using hr, ?_⟩
        simpa [countRA, raVal] using hc
      · obtain ⟨i, hi, hra, hcnt⟩ := (ih _).mp h
        refine ⟨i + 1, by simpa using Nat.succ_lt_succ hi, by simpa using hra, ?_⟩
        simp only [List.take_succ_cons, countRA, List.map_cons, List.sum_cons] at hcnt ⊢
        omega
    · rintro ⟨i, hi, hra, hcnt⟩
      cases i with
      | zero =>
        left
        refine ⟨by simpa using hra, ?_⟩
        simpa [countRA, raVal] using hcnt
      | succ j =>
        right
        refine (ih _).mpr ⟨j, by simpa using Nat.lt_of_succ_lt_succ hi,
          by simpa using hra, ?_⟩
        simp only [List.take_succ_cons, countRA, List.map_cons, List.sum_cons] at hcnt ⊢
        omega

/-- Claim C8 (amended part).  After any sequence of record_action calls
since reset (the start of a hand), is_three_bet_situation is true
exactly when some recorded action was a Raise made with at least 2
raises or all-ins having occurred in the HAND up to and including it,
counted across ALL streets: the raises_current_street counter is never
reset on a street change, only by the new-hand reset. -/
theorem three_bet_flag_characterization (recs : List RecIn) :
    (runRecords recs).isThreeBetSituation = true ↔
      ∃ i, ∃ h : i < recs.length, (recs.get ⟨i, h⟩).action = .raise ∧
        2 ≤ countRA (recs.take (i + 1)) := by
  unfold runRecords
  rw [foldlBetting_threeBet]
  have h1 : resetBetting.isThreeBetSituation = false := rfl
  have h2 : resetBetting.raisesCurrentStreet = 0 := rfl
  rw [h1, h2, Bool.false_or]
  simpa using anyTriggers_iff recs 0

/-- Raises/all-ins on one particular street of a record sequence. -/
def countRAStreet (s : Street) (recs : List RecIn) : Nat :=
  countRA (recs.filter (fun r => r.street = s))

/-- Modelled from the claim's wording (C8): the flag should hold iff
some recorded Raise had at least 2 raises on ITS OWN street among the
actions recorded up to and including it (raises on earlier streets not
counting). -/
def perStreetTriggers (done : List RecIn) : List RecIn → Bool
  | [] => false
  | r :: rest =>
    (decide (r.action = .raise) &&
      decide (2 ≤ countRAStreet r.street (done ++ [r]))) ||
    perStreetTriggers (done ++ [r]) rest

/-- Claim C8 (counterexample).  One raise preflop followed by one raise
on the flop: no street ever saw 2 raises, so the claim's per-street
reading says the flag is false, yet the code's hand-wide counter
reaches 2 at the flop raise and is_three_bet_situation becomes true. -/
theorem three_bet_flag_cross_street :
    (runRecords [⟨.preflop, .player 1, .raise, none, false⟩,
      ⟨.flop, .player 2, .raise, none, false⟩]).isThreeBetSituation = true ∧
    perStreetTriggers [] [⟨.preflop, .player 1, .raise, none, false⟩,
      ⟨.flop, .player 2, .raise, none, false⟩] = false := by
  refine ⟨by decide, by decide⟩

/-- Python dict lookup on an insertion-ordered association list. -/
def alGet? {κ α : Type} [DecidableEq κ] (l : List (κ × α)) (k : κ) : Option α :=
  (l.find? (fun p => p.1 = k)).map (·.2)

/-- Python dict assignment: replace in place when the key exists,
append otherwise (insertion order preserved). -/
def alSet {κ α : Type} [DecidableEq κ] (l : List (κ × α)) (k : κ) (v : α) :
    List (κ × α) :=
  if (l.find? (fun p => p.1 = k)).isSome then
    l.map (fun p => if p.1 = k then (k, v) else p)
  else l ++ [(k, v)]

/-- State of HistorySymbols (history_symbols.py reset()); the
float('inf') initial minimum opponent stack is modelled with WithTop. -/
structure HistoryState where
  botsLastAction : Option Action
  botsLastActionByStreet : StreetMap (Option Action)
  betsByStreet : StreetMap Nat
  callsByStreet : StreetMap Nat
  checksByStreet : StreetMap Nat
  raisesByStreet : StreetMap Nat
  preflopActionSequence : List ActionData
  flopActionSequence : List ActionData
  turnActionSequence : List ActionData
  riverActionSequence : List ActionData
  opponentsLastAction : Option Action
  opponentsLastActionByStreet : StreetMap (Option Action)
  startingStackSize : ℚ
  maxOpponentStackSize : ℚ
  minOpponentStackSize : WithTop ℚ
  missingSmallBlind : Bool
  deriving DecidableEq

/-- HistorySymbols.record_action. -/
def recordHistory (st : HistoryState) (street : Street) (player : PName)
    (action : Action) (amount : Option ℚ) (isBot : Bool)
    (stackSize : Option ℚ) : HistoryState :=
  let ad : ActionData := ⟨player, action, amount⟩
  let st := match street with
    | .preflop => { st with preflopActionSequence := st.preflopActionSequence ++ [ad] }
    | .flop => { st with flopActionSequence := st.flopActionSequence ++ [ad] }
    | .turn => { st with turnActionSequence := st.turnActionSequence ++ [ad] }
    | .river => { st with riverActionSequence := st.riverActionSequence ++ [ad] }
  let st := if action = .raise ∨ action = .allIn then
      { st with raisesByStreet := st.raisesByStreet.set street (st.raisesByStreet.get street + 1) }
    else if action = .call then
      { st with callsByStreet := st.callsByStreet.set street (st.callsByStreet.get street + 1) }
    else if action = .check then
      { st with checksByStreet := st.checksByStreet.set street (st.checksByStreet.get street + 1) }
    else st
  let st := if isBot then
      { st with
          botsLastAction := some action
          botsLastActionByStreet := st.botsLastActionByStreet.set street (some action) }
    else
      { st with
          opponentsLastAction := some action
          opponentsLastActionByStreet := st.opponentsLastActionByStreet.set street (some action) }
  match stackSize with
  | none => st
  | some s =>
    if isBot then st
    else
      let st := if st.maxOpponentStackSize < s
        then { st with maxOpponentStackSize := s } else st
      if (s : WithTop ℚ) < st.minOpponentStackSize
        then { st with minOpponentStackSize := (s : WithTop ℚ) } else st

/-- State of PositionSymbols restricted to the fields its
record_action reads and writes (_player_actions, _player_bet_sizes,
_player_bet_positions, the aggressor/caller/raiser seats,
_player_in_hand and _active_players); the remaining fields are only
touched by update_table_state / reset, which record_action never
calls. -/
structure PositionState where
  playerActions : List (Int × Action)
  playerBetSizes : List (Int × ℚ)
  playerBetPositions : List (Int × Int)
  lastAggressorSeat : Int
  firstRaiser : Int
  lastRaiser : Int
  firstCaller : Int
  lastCaller : Int
  playerInHand : List (Int × Bool)
  activePlayers : Int
  deriving DecidableEq

/-- PositionSymbols.record_action. -/
def recordPosition (st : PositionState) (seat : Int) (action : Action)
    (betSize : ℚ) (betPosition : Int) : PositionState :=
  let st := { st with
    playerActions := alSet st.playerActions seat action
    playerBetSizes := alSet st.playerBetSizes seat betSize
    playerBetPositions := alSet st.playerBetPositions seat betPosition }
  if action = .raise then
    let st := { st with lastAggressorSeat := seat }
    let st := if st.firstRaiser = -1 then { st with firstRaiser := seat } else st
    { st with lastRaiser := seat }
  else if action = .call then
    let st := if st.firstCaller = -1 then { st with firstCaller := seat } else st
    { st with lastCaller := seat }
  else if action = .fold then
    { st with
        playerInHand := alSet st.playerInHand seat false
        activePlayers := st.activePlayers - 1 }
  else st

/-- opponent_modeling.PlayerType. -/
inductive PlayerType where
  | unknown
  | tightPassive
  | tightAggressive
  | loosePassive
  | looseAggressive
  | maniac
  | nit
  | callingStation
  | rock
  deriving DecidableEq, Repr

/-- Per-position {vpip, pfr, hands} counters of PlayerProfile. -/
structure PosStats where
  vpipN : Nat
  pfrN : Nat
  handsN : Nat
  deriving DecidableEq, Repr

/-- The position_stats dict, keyed by the six positions. -/
structure PosStatsMap where
  button : PosStats
  smallBlind : PosStats
  bigBlind : PosStats
  utg : PosStats
  mp : PosStats
  co : PosStats
  deriving DecidableEq, Repr

/-- Read one position entry. -/
def PosStatsMap.get (m : PosStatsMap) : Position → PosStats
  | .button => m.button
  | .smallBlind => m.smallBlind
  | .bigBlind => m.bigBlind
  | .utg => m.utg
  | .mp => m.mp
  | .co => m.co

/-- Write one position entry. -/
def PosStatsMap.set (m : PosStatsMap) : Position → PosStats → PosStatsMap
  | .button, v => { m with button := v }
  | .smallBlind, v => { m with smallBlind := v }
  | .bigBlind, v => { m with bigBlind := v }
  | .utg, v => { m with utg := v }
  | .mp, v => { m with mp := v }
  | .co, v => { m with co := v }

/-- opponent_modeling.PlayerProfile (the mutable counters). -/
structure PlayerProfile where
  playerId : Int
  playerType : PlayerType
  handsPlayed : Nat
  vpipCount : Nat
  pfrCount : Nat
  aggressionCount : Nat
  passiveCount : Nat
  preflopFoldCount : Nat
  preflopCallCount : Nat
  preflopRaiseCount : Nat
  postflopCheckCount : Nat
  postflopBetCount : Nat
  postflopCallCount : Nat
  postflopRaiseCount : Nat
  flopCbetOpportunities : Nat
  flopCbetCount : Nat
  turnBarrelOpportunities : Nat
  turnBarrelCount : Nat
  riverBarrelOpportunities : Nat
  riverBarrelCount : Nat
  positionStats : PosStatsMap
  actionHistory : List (Street × Action × Position × Bool)
  deriving DecidableEq

/-- PlayerProfile.__init__. -/
def newProfile (id : Int) : PlayerProfile where
  playerId := id
  playerType := .unknown
  handsPlayed := 0
  vpipCount := 0
  pfrCount := 0
  aggressionCount := 0
  passiveCount := 0
  preflopFoldCount := 0
  preflopCallCount := 0
  preflopRaiseCount := 0
  postflopCheckCount := 0
  postflopBetCount := 0
  postflopCallCount := 0
  postflopRaiseCount := 0
  flopCbetOpportunities := 0
  flopCbetCount := 0
  turnBarrelOpportunities := 0
  turnBarrelCount := 0
  riverBarrelOpportunities := 0
  riverBarrelCount := 0
  positionStats := ⟨⟨0, 0, 0⟩, ⟨0, 0, 0⟩, ⟨0, 0, 0⟩, ⟨0, 0, 0⟩, ⟨0, 0, 0⟩, ⟨0, 0, 0⟩⟩
  actionHistory := []

/-- PlayerProfile._update_player_type: the VPIP/PFR/AF thresholds. -/
def updatePlayerType (p : PlayerProfile) : PlayerProfile :=
  if p.handsPlayed < 5 then { p with playerType := .unknown }
  else
    let vpip : ℚ := if 0 < p.handsPlayed then (p.vpipCount : ℚ) / p.handsPlayed else 0
    let pfr : ℚ := if 0 < p.handsPlayed then (p.pfrCount : ℚ) / p.handsPlayed else 0
    let af : ℚ := if 0 < p.passiveCount then (p.aggressionCount : ℚ) / p.passiveCount else 1
    let base : PlayerType :=
      if vpip < 1 / 5 then (if af < 1 then .tightPassive else .tightAggressive)
      else if vpip < 7 / 20 then (if af < 1 then .tightPassive else .tightAggressive)
      else (if af < 1 then .loosePassive else .looseAggressive)
    let final : PlayerType :=
      if 1 / 2 < vpip ∧ 2 < af then .maniac
      else if vpip < 3 / 20 ∧ pfr < 1 / 10 then .nit
      else if 2 / 5 < vpip ∧ af < 1 / 2 then .callingStation
      else if vpip < 1 / 10 ∧ pfr < 1 / 20 then .rock
      else base
    { p with playerType := final }

/-- PlayerProfile.update_with_action. -/
def updateWithAction (p : PlayerProfile) (street : Street) (action : Action)
    (position : Position) (isFirstAction : Bool) : PlayerProfile :=
  let p := { p with actionHistory := p.actionHistory ++ [(street, action, position, isFirstAction)] }
  let p := if street = .preflop then
      if action = .fold then { p with preflopFoldCount := p.preflopFoldCount + 1 }
      else if action = .call then
        { p with
            preflopCallCount := p.preflopCallCount + 1
            vpipCount := p.vpipCount + 1
            passiveCount := p.passiveCount + 1 }
      else if action = .raise then
        { p with
            preflopRaiseCount := p.preflopRaiseCount + 1
            vpipCount := p.vpipCount + 1
            pfrCount := p.pfrCount + 1
            aggressionCount := p.aggressionCount + 1 }
      else p
    else
      if action = .check then { p with postflopCheckCount := p.postflopCheckCount + 1 }
      else if action = .call then
        { p with
            postflopCallCount := p.postflopCallCount + 1
            passiveCount := p.passiveCount + 1 }
      else if action = .raise then
        { p with
            postflopRaiseCount := p.postflopRaiseCount + 1
            aggressionCount := p.aggressionCount + 1
            postflopBetCount := p.postflopBetCount + 1 }
      else p
  let p := if street = .preflop then
      let stats := p.positionStats.get position
      let stats := { stats with handsN := stats.handsN + 1 }
      let stats := if action = .call ∨ action = .raise
        then { stats with vpipN := stats.vpipN + 1 } else stats
      let stats := if action = .raise
        then { stats with pfrN := stats.pfrN + 1 } else stats
      { p with positionStats := p.positionStats.set position stats }
    else p
  let p := if street = .flop ∧ isFirstAction = true then
      let p := { p with flopCbetOpportunities := p.flopCbetOpportunities + 1 }
      if action = .raise then { p with flopCbetCount := p.flopCbetCount + 1 } else p
    else if street = .turn ∧ isFirstAction = true then
      let p := { p with turnBarrelOpportunities := p.turnBarrelOpportunities + 1 }
      if action = .raise then { p with turnBarrelCount := p.turnBarrelCount + 1 } else p
    else if street = .river ∧ isFirstAction = true then
      let p := { p with riverBarrelOpportunities := p.riverBarrelOpportunities + 1 }
      if action = .raise then { p with riverBarrelCount := p.riverBarrelCount + 1 } else p
    else p
  updatePlayerType p

/-- State of OpponentModeling (opponent_modeling.py reset()). -/
structure OppState where
  playerProfiles : List (Int × PlayerProfile)
  currentHandId : Nat
  currentStreet : Street
  preflopAggressor : Int
  flopAggressor : Int
  turnAggressor : Int
  riverAggressor : Int
  lastActionByPlayer : List (Int × (Street × Action))
  firstActionByPlayer : List ((Int × Street) × Bool)
  deriving DecidableEq

/-- OpponentModeling.record_action (note: it uses its OWN
_current_street, not the table's street argument). -/
def recordOpp (st : OppState) (playerId : Int) (action : Action)
    (position : Position) : OppState :=
  let isFirstAction := (alGet? st.firstActionByPlayer (playerId, st.currentStreet)).isNone
  let st :=
    { st with firstActionByPlayer := alSet st.firstActionByPlayer (playerId, st.currentStreet) true }
  let profiles := if (alGet? st.playerProfiles playerId).isSome
    then st.playerProfiles
    else alSet st.playerProfiles playerId (newProfile playerId)
  let profile := (alGet? profiles playerId).getD (newProfile playerId)
  let profiles := alSet profiles playerId
    (updateWithAction profile st.currentStreet action position isFirstAction)
  let st := { st with
    playerProfiles := profiles
    lastActionByPlayer := alSet st.lastActionByPlayer playerId (st.currentStreet, action) }
  if action = .raise then
    match st.currentStreet with
    | .preflop => { st with preflopAggressor := playerId }
    | .flop => { st with flopAggressor := playerId }
    | .turn => { st with turnAggressor := playerId }
    | .river => { st with riverAggressor := playerId }
  else st

/-- table_state.Player. -/
structure Player where
  stack : ℚ
  position : Position
  hasPosition : Bool
  inHand : Bool
  lastAction : Option Action
  lastBetSize : ℚ
  deriving DecidableEq

/-- TableState (table_state.py __init__), with the four trackers that
record_action updates embedded; hero_cards ('','') is modelled as
none.  The remaining sub-components (board texture, hand strength,
outs, SPR symbols) are never touched by record_action. -/
structure TableState where
  players : List (Int × Player)
  heroSeat : Int
  buttonSeat : Int
  potSize : ℚ
  currentStreet : Street
  communityCards : List CardS
  heroCards : Option (CardS × CardS)
  currentBet : ℚ
  minRaise : ℚ
  lastAggressor : Option Int
  totalPlayers : Int
  activePlayers : Int
  heroStack : ℚ
  bbSize : ℚ
  bettingSymbols : BettingState
  historySymbols : HistoryState
  positionSymbols : PositionState
  opponentModeling : OppState
  deriving DecidableEq

/-- TableState.record_action: returns immediately when the seat is not
in the players dict; otherwise updates the player's last action and
bet, handles fold/raise/all-in side effects, and forwards the action
to the betting, history, position and opponent-modeling trackers. -/
def TableState.recordAction (st : TableState) (seat : Int) (action : Action)
    (amount : Option ℚ) : TableState :=
  match alGet? st.players seat with
  | none => st
  | some p =>
    let p1 : Player := { p with
      lastAction := some action
      lastBetSize := match amount with | some a => a | none => p.lastBetSize }
    let players1 := alSet st.players seat p1
    let (players2, activePlayers2) :=
      if action = .fold then
        (alSet players1 seat { p1 with inHand := false }, st.activePlayers - 1)
      else (players1, st.activePlayers)
    let (lastAggressor2, currentBet2) :=
      if action = .raise ∨ action = .allIn then
        (some seat, match amount with | some a => a | none => st.currentBet)
      else (st.lastAggressor, st.currentBet)
    let playerName := if seat = st.heroSeat then PName.bot else PName.player seat
    let isBot := seat = st.heroSeat
    let betting2 := recordBetting st.bettingSymbols st.currentStreet playerName
      action amount isBot
    let history2 := recordHistory st.historySymbols st.currentStreet playerName
      action amount isBot (some p1.stack)
    let actions := betting2.actionsByStreet.get st.currentStreet
    let betPosition : Int := if actions.isEmpty then 0 else (actions.length : Int) - 1
    let position2 := recordPosition st.positionSymbols seat action
      (match amount with | some a => a | none => 0) betPosition
    let opp2 := recordOpp st.opponentModeling seat action p1.position
    { st with
      players := players2
      activePlayers := activePlayers2
      lastAggressor := lastAggressor2
      currentBet := currentBet2
      bettingSymbols := betting2
      historySymbols := history2
      positionSymbols := position2
      opponentModeling := opp2 }

/-- Claim C10.  Calling TableState.record_action with a seat that is
not present in the players dict is a complete no-op: the guard
`if seat not in self.players: return` fires before any mutation, so
every player, the pot, current_bet, last_aggressor and all four
embedded trackers are left exactly as they were. -/
theorem record_action_missing_seat_noop (st : TableState) (seat : Int)
    (action : Action) (amount : Option ℚ)
    (h : alGet? st.players seat = none) :
    st.recordAction seat action amount = st := by
  unfold TableState.recordAction
  rw [h]

/-- Witness for record_action_missing_seat_noop: a concrete two-player
table asked to record an action for the absent seat 9. -/
theorem record_action_missing_seat_noop_witness :
    TableState.recordAction
      { players := [(1, ⟨100, .button, true, true, none, 0⟩),
          (2, ⟨50, .bigBlind, false, true, none, 0⟩)],
        heroSeat := 1, buttonSeat := 1, potSize := 30,
        currentStreet := .flop, communityCards := [],
        heroCards := none, currentBet := 20, minRaise := 40,
        lastAggressor := some 2, totalPlayers := 2, activePlayers := 2,
        heroStack := 100, bbSize := 20,
        bettingSymbols := resetBetting,
        historySymbols := ⟨none, StreetMap.const none, StreetMap.const 0,
          StreetMap.const 0, StreetMap.const 0, StreetMap.const 0,
          [], [], [], [], none, StreetMap.const none, 0, 0, ⊤, false⟩,
        positionSymbols := ⟨[], [], [], -1, -1, -1, -1, -1, [], 2⟩,
        opponentModeling := ⟨[], 0, .flop, -1, -1, -1, -1, [], []⟩ }
      9 .fold none =
      { players := [(1, ⟨100, .button, true, true, none, 0⟩),
          (2, ⟨50, .bigBlind, false, true, none, 0⟩)],
        heroSeat := 1, buttonSeat := 1, potSize := 30,
        currentStreet := .flop, communityCards := [],
        heroCards := none, currentBet := 20, minRaise := 40,
        lastAggressor := some 2, totalPlayers := 2, activePlayers := 2,
        heroStack := 100, bbSize := 20,
        bettingSymbols := resetBetting,
        historySymbols := ⟨none, StreetMap.const none, StreetMap.const 0,
          StreetMap.const 0, StreetMap.const 0, StreetMap.const 0,
          [], [], [], [], none, StreetMap.const none, 0, 0, ⊤, false⟩,
        positionSymbols := ⟨[], [], [], -1, -1, -1, -1, -1, [], 2⟩,
        opponentModeling := ⟨[], 0, .flop, -1, -1, -1, -1, [], []⟩ } :=
  record_action_missing_seat_noop _ 9 .fold none (by decide)

/-- Claim C5.  The spec says the wheel A-2-3-4-5 is ranked as a 5-high
straight, the LOWEST straight, scoring strictly below a 6-high
straight, and likewise for the wheel straight flush.  The code instead
scores every straight as base + max(values) where the wheel keeps the
Ace at its top value (12 in the 0-based encoding): the wheel scores
4000012, strictly ABOVE the 6-high straight 2-3-4-5-6 (4000004) and
equal to Broadway T-J-Q-K-A, and the wheel straight flush (8000012)
ties the royal flush. -/
theorem wheel_straight_scores_above_six_high :
    scoreFiveCardHand
      [⟨'A', 'h'⟩, ⟨'2', 'c'⟩, ⟨'3', 'd'⟩, ⟨'4', 's'⟩, ⟨'5', 'h'⟩] =
      .ok 4000012 ∧
    scoreFiveCardHand
      [⟨'2', 'c'⟩, ⟨'3', 'd'⟩, ⟨'4', 's'⟩, ⟨'5', 'h'⟩, ⟨'6', 'd'⟩] =
      .ok 4000004 ∧
    scoreFiveCardHand
      [⟨'T', 'h'⟩, ⟨'J', 'h'⟩, ⟨'Q', 'h'⟩, ⟨'K', 'h'⟩, ⟨'A', 'h'⟩] =
      .ok 8000012 ∧
    scoreFiveCardHand
      [⟨'A', 'h'⟩, ⟨'2', 'h'⟩, ⟨'3', 'h'⟩, ⟨'4', 'h'⟩, ⟨'5', 'h'⟩] =
      .ok 8000012 ∧
    4000004 < 4000012 := by
  refine ⟨by decide, by decide, by decide, by decide, by decide⟩

/-- Claim C6.  The spec says an overpair is labelled OVERPAIR_STRONG
iff the pocket pair is Queens or higher, OVERPAIR_WEAK otherwise.  In
the code, the one-pair branch of _evaluate_made_hand first calls
`self._have_overpair`, a method that does not exist on HandEvaluator
(only the public `have_overpair` is defined), so EVERY one-pair holding
— every overpair included — raises AttributeError instead of returning
a label: here pocket Queens over the board J-7-2. -/
theorem overpair_queens_raises_attribute_error :
    evaluateMadeHand [⟨'Q', 'h'⟩, ⟨'Q', 'd'⟩]
      [⟨'J', 'h'⟩, ⟨'7', 'c'⟩, ⟨'2', 's'⟩] =
      .error PyErr.attributeError ∧
    evaluateHandStrength [⟨'Q', 'h'⟩, ⟨'Q', 'd'⟩]
      [⟨'J', 'h'⟩, ⟨'7', 'c'⟩, ⟨'2', 's'⟩] =
      .error PyErr.attributeError := by
  refine ⟨by decide, by decide⟩

/-- board_texture_symbols._parse_card: upper-case the rank character
(A/K/Q/J/T by name, any other character goes through int(rank_char),
which must then name a valid Rank member 2..9, else ValueError), then
the lower-cased suit character (h/d/c/s, else ValueError); the rank is
parsed before the suit, so a card invalid in both raises for the rank. -/
def parseCardBT (c : CardS) : Except PyErr PCard :=
  let rc := c.rank.toUpper
  match (if rc = 'A' then some 14 else if rc = 'K' then some 13
    else if rc = 'Q' then some 12 else if rc = 'J' then some 11
    else if rc = 'T' then some 10
    else if '2' ≤ rc ∧ rc ≤ '9' then some (rc.toNat - '0'.toNat)
    else none : Option Nat) with
  | none => .error PyErr.valueError
  | some r =>
    let sc := c.suit.toLower
    if sc = 'h' then .ok ⟨r, .hearts⟩
    else if sc = 'd' then .ok ⟨r, .diamonds⟩
    else if sc = 'c' then .ok ⟨r, .clubs⟩
    else if sc = 's' then .ok ⟨r, .spades⟩
    else .error PyErr.valueError

/-- BoardAnalyzer.analyze_board, restricted to what the callers in
gecko_bot.py can observe: the empty dict (none) for boards under 3
cards; the ValueError of _parse_card for an invalid card, raised while
texture_symbols.update_board parses the board; and otherwise the
BoardTexture stored under the key texture by _classify_texture (wet →
VERY_WET when monotone / very connected / full house on board, else
WET; semi-wet → SEMI_WET; otherwise DRY).  All the remaining dict
entries are computed from the already-parsed cards and raise nothing
(_rank_to_number falls back to 0 for unknown ranks), so they have no
observable effect; is_wet_board / is_semi_wet_board thread the Except
of board_connectedness, which cannot fire on 3+ cards. -/
def analyzeBoard (board : List CardS) : Except PyErr (Option BoardTexture) :=
  if board.length < 3 then .ok none
  else
    match mapME parseCardBT board with
    | .error e => .error e
    | .ok pc =>
      match isWetBoard pc with
      | .error e => .error e
      | .ok wet =>
        if wet then
          .ok (some (if isMonotoneBoard pc || isVeryConnectedBoard pc ||
            isFullHouseOnBoard pc then .veryWet else .wet))
        else
          match isSemiWetBoard pc with
          | .error e => .error e
          | .ok semi => .ok (some (if semi then .semiWet else .dry))

/-- The expression board_texture of texture compared with the string
DRY by == in gecko_bot.py: indexing the empty dict returned by
analyze_board raises KeyError; on a populated dict the comparison pits
a BoardTexture enum member against a plain string, which in Python is
always False, whatever the texture. -/
def textureDryEq (t : Option BoardTexture) : Except PyErr Bool :=
  match t with
  | none => .error PyErr.keyError
  | some _ => .ok false

/-- The companion comparison with != in gecko_bot.py: KeyError on the
empty dict, and always True on a populated one (enum never equals a
string). -/
def textureDryNe (t : Option BoardTexture) : Except PyErr Bool :=
  match t with
  | none => .error PyErr.keyError
  | some _ => .ok true

/-- The five strings spr_symbols._get_spr_category can return
(table_state.get_spr_category passes them through). -/
inductive SprCat where
  | veryLow
  | low
  | medium
  | high
  | veryHigh
  deriving DecidableEq, Repr

/-- The inputs GeckoBot.make_decision reads from its TableState.  The
fields below the betting symbols are the results of the table-state /
sub-tracker queries the decision routines invoke (get_spr_category,
is_short_stacked, is_deep_stacked, is_committed(pot*0.5),
calculate_optimal_bet_size(0.8) and (0.6), get_equity_from_outs,
get_effective_stack — whose surviving definition delegates to
spr_symbols.calculate_effective_stack — the position symbol queries,
and the stacks of the in-hand players read by _good_implied_odds).
They are left universally quantified, so every theorem below holds for
every possible answer of those sub-components; none of the calls can
raise.  The betting symbols state is the embedded BettingState, used
directly by _facing_raise, _multiple_raisers, _facing_donk_bet and
_facing_cbet. -/
structure DecisionCtx where
  street : Street
  heroCards : List CardS
  communityCards : List CardS
  potSize : ℚ
  currentBet : ℚ
  minRaise : ℚ
  heroStack : ℚ
  effectiveStack : ℚ
  equityFromOuts : ℚ
  optBet08 : ℚ
  optBet06 : ℚ
  sprCategory : SprCat
  isShortStacked : Bool
  isDeepStacked : Bool
  isCommittedHalfPot : Bool
  isLatePosition : Bool
  isLastToAct : Bool
  isMiddlePosition : Bool
  isFirstToAct : Bool
  isInPositionVsAggressor : Bool
  isInPositionVsCallers : Bool
  inHandStacks : List ℚ
  bettingSymbols : BettingState
  deriving DecidableEq

/-- TableState.get_pot_odds: call / (pot + call) when the call amount
is positive (ZeroDivisionError when pot + call is zero), else 0. -/
def getPotOdds (pot call : ℚ) : Except PyErr ℚ :=
  if 0 < call then
    if pot + call = 0 then .error PyErr.zeroDivisionError
    else .ok (call / (pot + call))
  else .ok 0

/-- GeckoBot._facing_bet (and _facing_action): current_bet > 0. -/
def facingBet (ctx : DecisionCtx) : Bool :=
  decide (0 < ctx.currentBet)

/-- BettingActionSymbols.raises_since_last_play: with no bot action on
the street the hand-cumulative raises counter is returned; otherwise
the Raise entries recorded after the bot's last action on the street
are counted (the Python loop breaks at the first entry whose player is
the bot and which equals the last bot action, leaving index -1 and
hence counting every Raise when no entry matches).  The counting loop
over indices above the bot's last: -/
def raisesAfterIdx (acts : List ActionData) (lastIdx : Int) : Nat :=
  acts.enum.countP (fun p =>
    decide (lastIdx < Int.ofNat p.1) && decide (p.2.action = Action.raise))

/-- The index of the bot's last action within the street's action
list: the first entry whose player is the bot and which equals the
last bot action, -1 when none matches. -/
def lastBotActionIdx (acts : List ActionData) (lastBot : ActionData) : Int :=
  match acts.findIdx? (fun a => decide (a.player = PName.bot) && decide (a = lastBot)) with
  | some i => Int.ofNat i
  | none => -1

def raisesSinceLastPlay (st : BettingState) (street : Street) : Nat :=
  match (st.botActionsByStreet.get street).getLast? with
  | none => st.raisesCurrentStreet
  | some lastBot =>
    let acts := st.actionsByStreet.get street
    raisesAfterIdx acts (lastBotActionIdx acts lastBot)

/-- GeckoBot._facing_raise: raises_since_last_play on the current
street is positive. -/
def facingRaise (ctx : DecisionCtx) : Bool :=
  decide (0 < raisesSinceLastPlay ctx.bettingSymbols ctx.street)

/-- GeckoBot._facing_donk_bet: facing a bet and the donk-bet flag. -/
def facingDonkBet (ctx : DecisionCtx) : Bool :=
  facingBet ctx && ctx.bettingSymbols.isDonkBetSituation

/-- GeckoBot._facing_cbet — the second definition at the end of the
class body, which overrides the first: False preflop, otherwise the
continuation-bet flag (the overridden first version also required
_facing_bet). -/
def facingCbet (ctx : DecisionCtx) : Bool :=
  if ctx.street = Street.preflop then false
  else ctx.bettingSymbols.isContinuationBetSituation

/-- GeckoBot._multiple_raisers: at least two Raise entries among the
current street's recorded actions. -/
def multipleRaisers (ctx : DecisionCtx) : Bool :=
  decide (2 ≤ (ctx.bettingSymbols.actionsByStreet.get ctx.street).countP
    (fun a => decide (a.action = Action.raise)))

/-- GeckoBot._in_position — the second definition at the very end of
the class body, which overrides the position-enum version:
is_late_position() or is_last_to_act(). -/
def inPosition (ctx : DecisionCtx) : Bool :=
  ctx.isLatePosition || ctx.isLastToAct

/-- GeckoBot._good_implied_odds: the smallest in-hand stack is at
least 15 times the current bet; Python min() of an empty sequence
(no player in hand) raises ValueError. -/
def goodImpliedOdds (ctx : DecisionCtx) : Except PyErr Bool :=
  match ctx.inHandStacks with
  | [] => .error PyErr.valueError
  | h :: t => .ok (decide (15 * ctx.currentBet ≤ t.foldl min h))

/-- GeckoBot._have_good_draw: hand strength (which can raise out of
the evaluator) is a strong or medium draw, or the equity from outs is
at least 0.25. -/
def haveGoodDraw (ctx : DecisionCtx) : Except PyErr Bool :=
  match evaluateHandStrength ctx.heroCards ctx.communityCards with
  | .error e => .error e
  | .ok hs => .ok (hs.isStrongDraw || hs.isMediumDraw ||
      decide ((1 : ℚ) / 4 ≤ ctx.equityFromOuts))

/-- GeckoBot._getting_odds: pot odds of the current bet first (can
divide by zero), then, for a good draw (whose evaluation can raise),
pot_odds <= equity or pot_odds >= 0.2; otherwise pot_odds >= 0.3. -/
def gettingOdds (ctx : DecisionCtx) : Except PyErr Bool :=
  match getPotOdds ctx.potSize ctx.currentBet with
  | .error e => .error e
  | .ok po =>
    match haveGoodDraw ctx with
    | .error e => .error e
    | .ok gd =>
      .ok (if gd then decide (po ≤ ctx.equityFromOuts) || decide ((1 : ℚ) / 5 ≤ po)
        else decide ((3 : ℚ) / 10 ≤ po))

/-- GeckoBot._getting_good_odds: pot_odds <= equity_from_outs or
pot_odds >= 0.25. -/
def gettingGoodOdds (ctx : DecisionCtx) : Except PyErr Bool :=
  match getPotOdds ctx.potSize ctx.currentBet with
  | .error e => .error e
  | .ok po => .ok (decide (po ≤ ctx.equityFromOuts) || decide ((1 : ℚ) / 4 ≤ po))

/-- GeckoBot._raise_decision: the multiplier is adjusted by the SPR
category (very_low: min(m*1.5, 1.0); low: min(m*1.2, 0.75); high:
m*0.8; very_high: m*0.6; medium: unchanged), and the raise amount is
max(min_raise, min(pot_size * multiplier, effective_stack)). -/
def raiseDecision (ctx : DecisionCtx) (m : ℚ) : Action × ℚ :=
  let mAdj : ℚ := match ctx.sprCategory with
    | .veryLow => min (m * (3 / 2)) 1
    | .low => min (m * (6 / 5)) (3 / 4)
    | .medium => m
    | .high => m * (4 / 5)
    | .veryHigh => m * (3 / 5)
  (Action.raise, max ctx.minRaise (min (ctx.potSize * mAdj) ctx.effectiveStack))

/-- GeckoBot._make_preflop_decision.  The unused local reads
(hero position, the hand string, the symbol and history lookups at the
top of the method) are pure and raise nothing on two parsed hole
cards, so they are not threaded here; `hand_strength in [...]` is the
corresponding disjunction of equalities, and the Python `and`
chains keep their left-to-right short-circuit order, which fixes
which fallible helper is consulted first. -/
def makePreflopDecision (ctx : DecisionCtx) : Except PyErr (Action × ℚ) :=
  match evaluateHandStrength ctx.heroCards [] with
  | .error e => .error e
  | .ok hs =>
    if hs = HandStrength.overpairStrong then
      if facingRaise ctx then
        if multipleRaisers ctx then
          if ctx.isShortStacked then .ok (raiseDecision ctx 1)
          else if ctx.sprCategory = .veryLow ∨ ctx.sprCategory = .low then
            .ok (raiseDecision ctx (9 / 2))
          else .ok (raiseDecision ctx 4)
        else if ctx.isShortStacked then .ok (raiseDecision ctx 1)
        else if ctx.sprCategory = .veryLow ∨ ctx.sprCategory = .low then
          .ok (raiseDecision ctx (7 / 2))
        else .ok (raiseDecision ctx 3)
      else if ctx.isShortStacked then .ok (raiseDecision ctx 1)
      else if ctx.isDeepStacked then .ok (raiseDecision ctx 2)
      else .ok (raiseDecision ctx (5 / 2))
    else if hs = HandStrength.overpairWeak ∨ hs = HandStrength.topPairGoodKicker then
      if facingRaise ctx then
        if multipleRaisers ctx then
          match gettingGoodOdds ctx with
          | .error e => .error e
          | .ok g =>
            if g then .ok (Action.call, ctx.currentBet) else .ok (Action.fold, 0)
        else .ok (raiseDecision ctx 3)
      else .ok (raiseDecision ctx (5 / 2))
    else if hs = HandStrength.topPairWeakKicker ∨ hs = HandStrength.middlePairGoodKicker then
      if facingRaise ctx then
        match gettingGoodOdds ctx with
        | .error e => .error e
        | .ok g =>
          if g && !multipleRaisers ctx then .ok (Action.call, ctx.currentBet)
          else .ok (Action.fold, 0)
      else if ctx.isLatePosition || ctx.isLastToAct then .ok (raiseDecision ctx (5 / 2))
      else if ctx.isMiddlePosition && !ctx.isFirstToAct then .ok (Action.call, ctx.currentBet)
      else .ok (Action.fold, 0)
    else if hs.isDraw then
      if facingRaise ctx then
        match gettingGoodOdds ctx with
        | .error e => .error e
        | .ok g =>
          if g then
            match goodImpliedOdds ctx with
            | .error e => .error e
            | .ok gi =>
              if gi && !multipleRaisers ctx then .ok (Action.call, ctx.currentBet)
              else .ok (Action.fold, 0)
          else .ok (Action.fold, 0)
      else if ctx.isLatePosition || ctx.isLastToAct then .ok (raiseDecision ctx (5 / 2))
      else if ctx.isMiddlePosition && ctx.isInPositionVsCallers then
        .ok (Action.call, ctx.currentBet)
      else .ok (Action.fold, 0)
    else .ok (Action.fold, 0)

/-- GeckoBot._make_flop_decision: the evaluator runs first, then
analyze_board; afterwards only the branch conditions decide which
fallible expression (the texture lookup, _getting_odds) is reached.
The sequential `optimal_bet_size *= 0.8` of the deep-stacked medium
branch is written as the equivalent conditional multiplier. -/
def makeFlopDecision (ctx : DecisionCtx) : Except PyErr (Action × ℚ) :=
  match evaluateHandStrength ctx.heroCards ctx.communityCards with
  | .error e => .error e
  | .ok hs =>
    match analyzeBoard ctx.communityCards with
    | .error e => .error e
    | .ok bt =>
      if !facingBet ctx then
        if hs.isStrongMadeHand then
          if ctx.isCommittedHalfPot then .ok (raiseDecision ctx (ctx.optBet08 * (6 / 5)))
          else if ctx.isShortStacked then .ok (raiseDecision ctx 1)
          else
            match textureDryEq bt with
            | .error e => .error e
            | .ok dry =>
              if dry then .ok (raiseDecision ctx (ctx.optBet08 * (4 / 5)))
              else .ok (raiseDecision ctx (ctx.optBet08 * (11 / 10)))
        else if hs.isMediumMadeHand then
          if ctx.isLatePosition || ctx.isLastToAct then
            .ok (raiseDecision ctx
              (if ctx.isDeepStacked then ctx.optBet06 * (4 / 5) else ctx.optBet06))
          else
            match textureDryEq bt with
            | .error e => .error e
            | .ok dry =>
              if dry then
                .ok (raiseDecision ctx
                  (if ctx.isDeepStacked then ctx.optBet06 * (4 / 5) else ctx.optBet06))
              else .ok (Action.check, 0)
        else if hs.isStrongDraw then
          if ctx.isLatePosition || ctx.isLastToAct then
            match textureDryNe bt with
            | .error e => .error e
            | .ok nd =>
              if nd then .ok (raiseDecision ctx (1 / 2))
              else if ctx.isInPositionVsAggressor && ctx.isInPositionVsCallers then
                .ok (raiseDecision ctx (1 / 2))
              else .ok (Action.check, 0)
          else if ctx.isInPositionVsAggressor && ctx.isInPositionVsCallers then
            .ok (raiseDecision ctx (1 / 2))
          else .ok (Action.check, 0)
        else .ok (Action.check, 0)
      else if facingDonkBet ctx then
        if hs.isStrongMadeHand then .ok (raiseDecision ctx 3)
        else if hs.isMediumMadeHand then
          match textureDryEq bt with
          | .error e => .error e
          | .ok dry =>
            if dry then .ok (Action.call, ctx.currentBet)
            else if inPosition ctx then .ok (raiseDecision ctx (5 / 2))
            else .ok (Action.call, ctx.currentBet)
        else if hs.isStrongDraw then
          match gettingOdds ctx with
          | .error e => .error e
          | .ok go =>
            if go then .ok (Action.call, ctx.currentBet) else .ok (Action.fold, 0)
        else .ok (Action.fold, 0)
      else if facingCbet ctx then
        if hs.isStrongMadeHand then
          match textureDryEq bt with
          | .error e => .error e
          | .ok dry =>
            if dry then .ok (raiseDecision ctx (5 / 2)) else .ok (raiseDecision ctx 3)
        else if hs.isMediumMadeHand then
          match textureDryEq bt with
          | .error e => .error e
          | .ok dry =>
            if dry then .ok (Action.call, ctx.currentBet)
            else if inPosition ctx then .ok (raiseDecision ctx (5 / 2))
            else .ok (Action.call, ctx.currentBet)
        else if hs.isStrongDraw || (hs.isMediumDraw && inPosition ctx) then
          match gettingOdds ctx with
          | .error e => .error e
          | .ok go =>
            if go then
              match textureDryNe bt with
              | .error e => .error e
              | .ok nd =>
                if nd then .ok (raiseDecision ctx (5 / 2))
                else .ok (Action.call, ctx.currentBet)
            else .ok (Action.fold, 0)
        else .ok (Action.fold, 0)
      else .ok (Action.fold, 0)

/-- GeckoBot._make_turn_decision. -/
def makeTurnDecision (ctx : DecisionCtx) : Except PyErr (Action × ℚ) :=
  match evaluateHandStrength ctx.heroCards ctx.communityCards with
  | .error e => .error e
  | .ok hs =>
    match analyzeBoard ctx.communityCards with
    | .error e => .error e
    | .ok bt =>
      if !facingBet ctx then
        if hs.isStrongMadeHand then
          match textureDryEq bt with
          | .error e => .error e
          | .ok dry =>
            if dry then .ok (raiseDecision ctx (33 / 50))
            else .ok (raiseDecision ctx (3 / 4))
        else if hs.isMediumMadeHand && inPosition ctx then
          match textureDryEq bt with
          | .error e => .error e
          | .ok dry =>
            if dry then .ok (raiseDecision ctx (1 / 2)) else .ok (Action.check, 0)
        else if hs.isStrongDraw && inPosition ctx then
          match textureDryNe bt with
          | .error e => .error e
          | .ok nd =>
            if nd then .ok (raiseDecision ctx (1 / 2)) else .ok (Action.check, 0)
        else .ok (Action.check, 0)
      else
        if hs.isStrongMadeHand then
          match textureDryEq bt with
          | .error e => .error e
          | .ok dry =>
            if dry then .ok (raiseDecision ctx (5 / 2)) else .ok (raiseDecision ctx 3)
        else if hs.isMediumMadeHand then
          match textureDryEq bt with
          | .error e => .error e
          | .ok dry =>
            if dry then .ok (Action.call, ctx.currentBet)
            else if inPosition ctx then .ok (raiseDecision ctx (5 / 2))
            else .ok (Action.call, ctx.currentBet)
        else if hs.isStrongDraw then
          match gettingOdds ctx with
          | .error e => .error e
          | .ok go =>
            if go then
              match textureDryNe bt with
              | .error e => .error e
              | .ok nd =>
                if nd then .ok (raiseDecision ctx (5 / 2))
                else .ok (Action.call, ctx.currentBet)
            else .ok (Action.fold, 0)
        else .ok (Action.fold, 0)

/-- GeckoBot._make_river_decision: the thresholds compare
hand_strength.value with TWO_PAIR_TOP (70), TOP_PAIR_GOOD_KICKER (40),
SET (75) and TWO_PAIR_TOP_AND_MIDDLE (65). -/
def makeRiverDecision (ctx : DecisionCtx) : Except PyErr (Action × ℚ) :=
  match evaluateHandStrength ctx.heroCards ctx.communityCards with
  | .error e => .error e
  | .ok hs =>
    match analyzeBoard ctx.communityCards with
    | .error e => .error e
    | .ok bt =>
      if !facingBet ctx then
        if 70 ≤ hs.val then
          match textureDryEq bt with
          | .error e => .error e
          | .ok dry =>
            if dry then .ok (raiseDecision ctx (3 / 4)) else .ok (raiseDecision ctx 1)
        else if 40 ≤ hs.val then
          match textureDryEq bt with
          | .error e => .error e
          | .ok dry =>
            if dry && inPosition ctx then .ok (raiseDecision ctx (1 / 2))
            else .ok (Action.check, 0)
        else .ok (Action.check, 0)
      else
        if 75 ≤ hs.val then
          match textureDryEq bt with
          | .error e => .error e
          | .ok dry =>
            if dry then .ok (raiseDecision ctx (5 / 2)) else .ok (raiseDecision ctx 3)
        else if 65 ≤ hs.val then
          match textureDryEq bt with
          | .error e => .error e
          | .ok dry =>
            if dry then .ok (Action.call, ctx.currentBet)
            else if inPosition ctx then .ok (raiseDecision ctx (5 / 2))
            else .ok (Action.call, ctx.currentBet)
        else if 40 ≤ hs.val then
          match textureDryEq bt with
          | .error e => .error e
          | .ok dry =>
            if dry then
              match gettingGoodOdds ctx with
              | .error e => .error e
              | .ok g =>
                if g then .ok (Action.call, ctx.currentBet) else .ok (Action.fold, 0)
            else .ok (Action.fold, 0)
        else .ok (Action.fold, 0)

/-- GeckoBot.make_decision: dispatch on the current street. -/
def makeDecision (ctx : DecisionCtx) : Except PyErr (Action × ℚ) :=
  match ctx.street with
  | .preflop => makePreflopDecision ctx
  | .flop => makeFlopDecision ctx
  | .turn => makeTurnDecision ctx
  | .river => makeRiverDecision ctx

/-- The first component of _raise_decision is always Action.RAISE. -/
theorem raiseDecision_fst (ctx : DecisionCtx) (m : ℚ) :
    (raiseDecision ctx m).1 = Action.raise := rfl

/-- The _raise_decision amount max(min_raise, ...) is at least min_raise. -/
theorem raiseDecision_min (ctx : DecisionCtx) (m : ℚ) :
    ctx.minRaise ≤ (raiseDecision ctx m).2 :=
  le_max_left _ _

/-- The legality constraints of spec property P6 for one returned
(action, amount) pair: Check only without a live bet, Raise at least
the minimum raise, AllIn only for the full hero stack. -/
def legalResult (ctx : DecisionCtx) (r : Action × ℚ) : Prop :=
  (r.1 = Action.check → ¬ 0 < ctx.currentBet) ∧
  (r.1 = Action.raise → ctx.minRaise ≤ r.2) ∧
  (r.1 = Action.allIn → r.2 = ctx.heroStack)

theorem legal_fold (ctx : DecisionCtx) (q : ℚ) : legalResult ctx (Action.fold, q) := by
  refine ⟨?_, ?_, ?_⟩ <;> intro hx <;> simp at hx

theorem legal_call (ctx : DecisionCtx) (q : ℚ) : legalResult ctx (Action.call, q) := by
  refine ⟨?_, ?_, ?_⟩ <;> intro hx <;> simp at hx

theorem legal_check (ctx : DecisionCtx) (hfb : (!facingBet ctx) = true) :
    legalResult ctx (Action.check, 0) := by
  refine ⟨fun hx => ?_, fun hx => ?_, fun hx => ?_⟩
  · simpa [facingBet] using hfb
  · simp at hx
  · simp at hx

theorem legal_raise (ctx : DecisionCtx) (m : ℚ) :
    legalResult ctx (raiseDecision ctx m) := by
  refine ⟨fun hx => ?_, fun hx => ?_, fun hx => ?_⟩
  · rw [raiseDecision_fst] at hx; simp at hx
  · exact raiseDecision_min ctx m
  · rw [raiseDecision_fst] at hx; simp at hx

/-- Every normal return of the preflop routine is legal. -/
theorem makePreflopDecision_legal (ctx : DecisionCtx) (r : Action × ℚ)
    (h : makePreflopDecision ctx = Except.ok r) : legalResult ctx r := by
  unfold makePreflopDecision at h
  repeat' split at h
  all_goals cases h
  all_goals first
    | exact legal_fold ctx _
    | exact legal_call ctx _
    | exact legal_raise ctx _

/-- Every normal return of the flop routine is legal. -/
theorem makeFlopDecision_legal (ctx : DecisionCtx) (r : Action × ℚ)
    (h : makeFlopDecision ctx = Except.ok r) : legalResult ctx r := by
  unfold makeFlopDecision at h
  repeat' split at h
  all_goals cases h
  all_goals first
    | exact legal_fold ctx _
    | exact legal_call ctx _
    | exact legal_raise ctx _
    | (apply legal_check; assumption)

/-- Every normal return of the turn routine is legal. -/
theorem makeTurnDecision_legal (ctx : DecisionCtx) (r : Action × ℚ)
    (h : makeTurnDecision ctx = Except.ok r) : legalResult ctx r := by
  unfold makeTurnDecision at h
  repeat' split at h
  all_goals cases h
  all_goals first
    | exact legal_fold ctx _
    | exact legal_call ctx _
    | exact legal_raise ctx _
    | (apply legal_check; assumption)

/-- Every normal return of the river routine is legal. -/
theorem makeRiverDecision_legal (ctx : DecisionCtx) (r : Action × ℚ)
    (h : makeRiverDecision ctx = Except.ok r) : legalResult ctx r := by
  unfold makeRiverDecision at h
  repeat' split at h
  all_goals cases h
  all_goals first
    | exact legal_fold ctx _
    | exact legal_call ctx _
    | exact legal_raise ctx _
    | (apply legal_check; assumption)

/-- A concrete table context on the river holding pocket Aces with an
empty community-card list (a street/board inconsistency): used to show
make_decision does not always return an action. -/
def ctxC1err : DecisionCtx where
  street := .river
  heroCards := [⟨'A', 'h'⟩, ⟨'A', 'd'⟩]
  communityCards := []
  potSize := 30
  currentBet := 0
  minRaise := 20
  heroStack := 100
  effectiveStack := 80
  equityFromOuts := 0
  optBet08 := 24
  optBet06 := 18
  sprCategory := .medium
  isShortStacked := false
  isDeepStacked := false
  isCommittedHalfPot := false
  isLatePosition := false
  isLastToAct := false
  isMiddlePosition := false
  isFirstToAct := false
  isInPositionVsAggressor := false
  isInPositionVsCallers := false
  inHandStacks := [100, 80]
  bettingSymbols := resetBetting

/-- Part of claim C1 (refutation of the universal statement):
make_decision does not return an action for EVERY table state — on the
river with an empty community-card list, pocket Aces evaluate to a
strength of value 50 ≥ 40, analyze_board returns the empty dict, and
the texture lookup raises KeyError, so no action at all is returned. -/
theorem make_decision_not_total :
    makeDecision ctxC1err = Except.error PyErr.keyError := by decide

/-- A concrete unopened preflop context holding 7h 2d, on which
make_decision returns normally (Fold). -/
def ctxC1 : DecisionCtx where
  street := .preflop
  heroCards := [⟨'7', 'h'⟩, ⟨'2', 'd'⟩]
  communityCards := []
  potSize := 30
  currentBet := 0
  minRaise := 20
  heroStack := 100
  effectiveStack := 80
  equityFromOuts := 0
  optBet08 := 24
  optBet06 := 18
  sprCategory := .medium
  isShortStacked := false
  isDeepStacked := false
  isCommittedHalfPot := false
  isLatePosition := false
  isLastToAct := false
  isMiddlePosition := false
  isFirstToAct := false
  isInPositionVsAggressor := false
  isInPositionVsCallers := false
  inHandStacks := [100, 80]
  bettingSymbols := resetBetting

/-- Claim C1 (amended).  Whenever make_decision returns normally from
a state whose current bet is non-negative — it need not, see
make_decision_not_total — the returned action is one of Fold, Check,
Call, Raise, AllIn; Check is returned only when current_bet = 0; every
returned Raise carries an amount at least min_raise; and a returned
AllIn would carry the hero's full stack (vacuously, as no branch
returns AllIn).  The context quantifies over every answer of the
position/SPR/outs/betting sub-components, so this holds for every
table state. -/
theorem make_decision_legal (ctx : DecisionCtx) (r : Action × ℚ)
    (hb : 0 ≤ ctx.currentBet) (h : makeDecision ctx = Except.ok r) :
    (r.1 = Action.fold ∨ r.1 = Action.check ∨ r.1 = Action.call ∨
      r.1 = Action.raise ∨ r.1 = Action.allIn) ∧
    (r.1 = Action.check → ctx.currentBet = 0) ∧
    (r.1 = Action.raise → ctx.minRaise ≤ r.2) ∧
    (r.1 = Action.allIn → r.2 = ctx.heroStack) := by
  have hl : legalResult ctx r := by
    unfold makeDecision at h
    split at h
    · exact makePreflopDecision_legal ctx r h
    · exact makeFlopDecision_legal ctx r h
    · exact makeTurnDecision_legal ctx r h
    · exact makeRiverDecision_legal ctx r h
  obtain ⟨hc, hr, ha⟩ := hl
  refine ⟨?_, fun hx => le_antisymm (not_lt.mp (hc hx)) hb, hr, ha⟩
  cases hA : r.1 <;> simp

/-- Witness for make_decision_legal: the hypotheses hold at ctxC1,
where the decision is Fold, and the theorem yields its raise clause. -/
theorem make_decision_legal_witness :
    makeDecision ctxC1 = Except.ok (Action.fold, 0) ∧
    ((Action.fold, (0 : ℚ)).1 = Action.raise → ctxC1.minRaise ≤ (0 : ℚ)) :=
  ⟨by decide, (make_decision_legal ctxC1 (Action.fold, 0) (le_refl 0) (by decide)).2.2.1⟩

/-- A concrete flop context whose community-card list is empty (a
detectable inconsistency): pocket Aces make a medium-strength hand out
of position, so the flop routine reaches the texture lookup on the
empty dict returned by analyze_board. -/
def ctxC2err : DecisionCtx where
  street := .flop
  heroCards := [⟨'A', 'h'⟩, ⟨'A', 'd'⟩]
  communityCards := []
  potSize := 30
  currentBet := 0
  minRaise := 20
  heroStack := 100
  effectiveStack := 80
  equityFromOuts := 0
  optBet08 := 24
  optBet06 := 18
  sprCategory := .medium
  isShortStacked := false
  isDeepStacked := false
  isCommittedHalfPot := false
  isLatePosition := false
  isLastToAct := false
  isMiddlePosition := false
  isFirstToAct := false
  isInPositionVsAggressor := false
  isInPositionVsCallers := false
  inHandStacks := [100, 80]
  bettingSymbols := resetBetting

/-- Part of claim C2 (refutation): on a flop state whose community
cards are missing — exactly the spec's example of an internally
detectable inconsistency — make_decision raises KeyError instead of
returning Fold with amount 0: analyze_board returns the empty dict for
fewer than 3 cards and the flop routine indexes it at the key texture. -/
theorem make_decision_raises_key_error :
    makeDecision ctxC2err = Except.error PyErr.keyError := by decide

/-- Claim C2 (amended).  Decisions do throw: on the flop, any error
raised by the hand-strength evaluation — the first statement of
_make_flop_decision — propagates out of make_decision unchanged;
nothing converts it into a Fold. -/
theorem make_decision_propagates_flop_errors (ctx : DecisionCtx) (e : PyErr)
    (hst : ctx.street = Street.flop)
    (he : evaluateHandStrength ctx.heroCards ctx.communityCards = Except.error e) :
    makeDecision ctx = Except.error e := by
  unfold makeDecision
  rw [hst]
  show makeFlopDecision ctx = Except.error e
  unfold makeFlopDecision
  rw [he]

/-- A concrete consistent flop context holding pocket Queens on
J-7-2 rainbow: the evaluator's one-pair branch calls the missing
_have_overpair and raises AttributeError. -/
def ctxC2w : DecisionCtx where
  street := .flop
  heroCards := [⟨'Q', 'h'⟩, ⟨'Q', 'd'⟩]
  communityCards := [⟨'J', 'h'⟩, ⟨'7', 'c'⟩, ⟨'2', 's'⟩]
  potSize := 30
  currentBet := 0
  minRaise := 20
  heroStack := 100
  effectiveStack := 80
  equityFromOuts := 0
  optBet08 := 24
  optBet06 := 18
  sprCategory := .medium
  isShortStacked := false
  isDeepStacked := false
  isCommittedHalfPot := false
  isLatePosition := false
  isLastToAct := false
  isMiddlePosition := false
  isFirstToAct := false
  isInPositionVsAggressor := false
  isInPositionVsCallers := false
  inHandStacks := [100, 80]
  bettingSymbols := resetBetting

/-- Witness for make_decision_propagates_flop_errors: at ctxC2w the
evaluator raises AttributeError, and so does make_decision. -/
theorem make_decision_propagates_flop_errors_witness :
    makeDecision ctxC2w = Except.error PyErr.attributeError :=
  make_decision_propagates_flop_errors ctxC2w PyErr.attributeError rfl (by decide)

end Gecko
